import Mathlib

/-!
Verification of the airport traffic-control resource core against its C
sources (So-final.c, So_refatorado_corrigido.c, So.c, So_restrito.c).
Each C function used by the claims is translated into a Lean definition;
concurrency is handled by passing the per-wakeup observations of shared
state explicitly (the C loops re-read shared state after each
condition-variable wait, so one list element per wakeup models exactly
what the loop body sees).
-/

namespace SoFinal

/-- Flight classes, from the TipoVoo enum of So-final.c (line 57). -/
inductive TipoVoo where
  | DOMESTICO
  | INTERNACIONAL
deriving DecidableEq

/-- Aircraft status values, from the StatusAviao enum of So-final.c (line 58).
SUCESSO doubles as the initial value set by main (line 632). -/
inductive StatusAviao where
  | SUCESSO
  | FALHA
  | ALERTA_CRITICO
  | STARVATION
  | DEADLOCK
deriving DecidableEq

/-- Aircraft record, from the Aviao struct of So-final.c (lines 60-75).
Times are integers (seconds); the progress flags are the has_* ints. -/
structure Aviao where
  id : Int
  tipo : TipoVoo
  status_final : StatusAviao
  em_alerta_critico : Bool
  ultimo_tempo_espera : Int
  has_pista : Bool
  has_portao : Bool
  has_torre : Bool
  inicio_pouso : Int
  fim_pouso : Int
  inicio_desembarque : Int
  fim_desembarque : Int
  inicio_decolagem : Int
  fim_decolagem : Int
deriving DecidableEq

/-- ALERTA_CRITICO_SECS of So-final.c (line 24). -/
def ALERTA_CRITICO_SECS : Int := 60

/-- TEMPO_MAXIMO_ESPERA of So-final.c (line 25). -/
def TEMPO_MAXIMO_ESPERA : Int := 90

/-- verificar_starvation of So-final.c (lines 111-156).  Takes the current
time and the two global counters acidentes_count and deadlock_count; returns
the updated aircraft and counters.  The printf and cond_broadcast calls have
no modelled state effect. -/
def verificar_starvation (a : Aviao) (agora : Int) (acidentes deadlocks : Int) :
    Aviao × Int × Int :=
  if a.status_final = .FALHA ∨ a.status_final = .STARVATION ∨
      a.status_final = .DEADLOCK then
    (a, acidentes, deadlocks)
  else
    let tempo_espera := agora - a.ultimo_tempo_espera
    if ALERTA_CRITICO_SECS ≤ tempo_espera ∧ tempo_espera < TEMPO_MAXIMO_ESPERA ∧
        a.em_alerta_critico = false then
      ({ a with em_alerta_critico := true, status_final := .ALERTA_CRITICO },
        acidentes, deadlocks)
    else if TEMPO_MAXIMO_ESPERA ≤ tempo_espera then
      if a.tipo = .DOMESTICO then
        ({ a with status_final := .STARVATION }, acidentes + 1, deadlocks)
      else
        ({ a with status_final := .DEADLOCK }, acidentes, deadlocks + 1)
    else (a, acidentes, deadlocks)

/-- Status test performed by checa_falha of So-final.c (line 161):
status_final == FALHA || status_final == STARVATION. -/
def eh_falha (s : StatusAviao) : Bool :=
  match s with
  | .FALHA => true
  | .STARVATION => true
  | _ => false

/-- checa_falha of So-final.c (lines 159-162): first runs
verificar_starvation, then tests the (possibly updated) status. -/
def checa_falha (a : Aviao) (agora : Int) (acidentes deadlocks : Int) :
    Bool × Aviao × Int × Int :=
  let r := verificar_starvation a agora acidentes deadlocks
  (eh_falha r.1.status_final, r)

/-- Reservation-gate counters pistas_disp, portoes_disp, torres_disp of
So-final.c (lines 80-82). -/
structure Pool where
  pistas_disp : Int
  portoes_disp : Int
  torres_disp : Int
deriving DecidableEq

/-- Availability test of reservar_recursos (So-final.c lines 199, 211):
all three counters at least the requested amounts. -/
def Pool.suficiente (p : Pool) (np ng nt : Int) : Prop :=
  np ≤ p.pistas_disp ∧ ng ≤ p.portoes_disp ∧ nt ≤ p.torres_disp

instance (p : Pool) (np ng nt : Int) : Decidable (p.suficiente np ng nt) := by
  unfold Pool.suficiente
  infer_instance

/-- Debit applied on a granted reservation (So-final.c lines 200-202,
212-214). -/
def Pool.debita (p : Pool) (np ng nt : Int) : Pool :=
  ⟨p.pistas_disp - np, p.portoes_disp - ng, p.torres_disp - nt⟩

/-- liberar_reserva of So-final.c (lines 235-242): credits the three
counters and broadcasts (no modelled effect for the broadcast). -/
def Pool.credita (p : Pool) (np ng nt : Int) : Pool :=
  ⟨p.pistas_disp + np, p.portoes_disp + ng, p.torres_disp + nt⟩

/-- Shared state observed by one iteration of the reservar_recursos loop of
So-final.c (lines 193-229): the loop re-reads everything after each
pthread_cond_timedwait, so concurrent interference is modelled by an
arbitrary observation per wakeup.  falha is the result of checa_falha(a) at
that wakeup, em_alerta_critico and tipo the aircraft fields read there. -/
structure ObsReserva where
  simulacao_ativa : Bool
  falha : Bool
  em_alerta_critico : Bool
  tipo : TipoVoo
  esperando_internacional : Int
  pool : Pool
deriving DecidableEq

/-- Return values of reservar_recursos (So-final.c lines 29-32), with the
granted pool attached to the SEM_OK case. -/
inductive ResReserva where
  | ok (pool : Pool)
  | timeout
  | simEncerrada
  | aviaoFalhou
deriving DecidableEq

/-- Grant decision of one iteration of reservar_recursos (So-final.c lines
197-219): an aircraft in critical alert is served whenever availability
suffices; otherwise a Domestic aircraft is blocked while
esperando_internacional > 0, and anyone else is served when availability
suffices.  Returns the debited pool on a grant, none when the iteration
allocates nothing. -/
def tenta_alocar (o : ObsReserva) (np ng nt : Int) : Option Pool :=
  if o.em_alerta_critico then
    if o.pool.suficiente np ng nt then some (o.pool.debita np ng nt) else none
  else
    if o.tipo = .DOMESTICO ∧ 0 < o.esperando_internacional then none
    else if o.pool.suficiente np ng nt then some (o.pool.debita np ng nt)
    else none

/-- reservar_recursos of So-final.c (lines 188-232) as a function of the
sequence of per-wakeup observations: each iteration first checks
simulacao_ativa and checa_falha, then tries to allocate; an exhausted
observation list is the rem <= 0 timeout exit (line 225). -/
def reservar_recursos (np ng nt : Int) : List ObsReserva → ResReserva
  | [] => .timeout
  | o :: resto =>
    if o.simulacao_ativa = false then .simEncerrada
    else if o.falha then .aviaoFalhou
    else
      match tenta_alocar o np ng nt with
      | some p => .ok p
      | none => reservar_recursos np ng nt resto

/-- Shared mutable state touched by the phase operations of So-final.c:
the reservation-gate counters, the three physical semaphore values, the two
priority-arbiter contention counts, and the two global failure counters. -/
structure Sys where
  pool : Pool
  sem_pistas : Int
  sem_portoes : Int
  sem_torres : Int
  esperando_internacional : Int
  esperando_domestico : Int
  acidentes : Int
  deadlocks : Int
deriving DecidableEq

/-- Resource classes of the pool. -/
inductive Recurso where
  | pista
  | portao
  | torre
deriving DecidableEq

/-- Observable events emitted by a phase, used to state ordering and
round-trip properties: a reservation debit, a gate credit
(liberar_reserva), a physical semaphore acquisition (sem_wait success with
the flag being set) and a physical release (sem_post with the flag being
cleared). -/
inductive Ev where
  | reserva (np ng nt : Int)
  | credita (np ng nt : Int)
  | semAcq (r : Recurso)
  | semRel (r : Recurso)
deriving DecidableEq

/-- liberar_reserva of So-final.c (lines 235-242) acting on the shared
state. -/
def Sys.liberar_reserva (s : Sys) (np ng nt : Int) : Sys :=
  { s with pool := s.pool.credita np ng nt }

/-- aguardar_prioridade of So-final.c (lines 245-276): records the wait
start on the aircraft, increments the contention count of its class, waits
(no modelled state effect), and decrements the count again when the exit
was taken because the simulation ended or checa_falha fired (the
saidaFalha oracle; lines 259-261 and 270-272).  The record mutations done
by the checa_falha calls inside the wait loop are subsumed by the
checkpoint that every caller runs immediately afterwards. -/
def aguardar_prioridade (tipo : TipoVoo) (a : Aviao) (tq : Int)
    (saidaFalha : Bool) (s : Sys) : Aviao × Sys :=
  let a1 := { a with ultimo_tempo_espera := tq }
  match tipo with
  | .INTERNACIONAL =>
    let s1 := { s with esperando_internacional := s.esperando_internacional + 1 }
    if saidaFalha then
      (a1, { s1 with esperando_internacional := s1.esperando_internacional - 1 })
    else (a1, s1)
  | .DOMESTICO =>
    let s1 := { s with esperando_domestico := s.esperando_domestico + 1 }
    if saidaFalha then
      (a1, { s1 with esperando_domestico := s1.esperando_domestico - 1 })
    else (a1, s1)

/-- liberar_prioridade of So-final.c (lines 279-295): guarded decrement of
the contention count of the class; the signalling has no modelled state
effect. -/
def liberar_prioridade (tipo : TipoVoo) (s : Sys) : Sys :=
  match tipo with
  | .INTERNACIONAL =>
    if 0 < s.esperando_internacional then
      { s with esperando_internacional := s.esperando_internacional - 1 }
    else s
  | .DOMESTICO =>
    if 0 < s.esperando_domestico then
      { s with esperando_domestico := s.esperando_domestico - 1 }
    else s

/-- Outcome of the reservar_recursos call as branched on by the phases of
So-final.c; on ok the pool has been debited by the remaining need (the
c1 theorems show that is exactly what reservar_recursos does). -/
inductive CodRr where
  | ok
  | timeout
  | simEncerrada
  | aviaoFalhou
deriving DecidableEq

/-- Per-call environment of one phase operation: the times read at each
call site, the exit kind of the priority wait, the reservation outcome,
and whether each physical sem_wait succeeds (sem_wait returning nonzero is
the rollback trigger in So-final.c). -/
structure FaseEnv where
  t1 : Int
  tq : Int
  saidaFalha : Bool
  t2 : Int
  tini : Int
  rr : CodRr
  okTorre : Bool
  okPortao : Bool
  okPista : Bool
  tfim : Int
deriving DecidableEq

/-- Result of a phase operation: the C return value (0 success, -1
failure, -2 SEM_SIM_ENCERRADA, -3 SEM_AVIAO_FALHOU), the updated aircraft
and shared state, and the emitted event trace. -/
structure FaseRes where
  ret : Int
  a : Aviao
  s : Sys
  tr : List Ev
deriving DecidableEq

/-- Common prologue of the three phase operations of So-final.c (lines
301-307, 365-371, 429-435): entry checkpoint, priority wait with its
wait-start write, second checkpoint with priority release on failure.
Returns the early failure result, or the aircraft and shared state with
which the phase body continues. -/
def prologo (a : Aviao) (s : Sys) (env : FaseEnv) :
    Sum FaseRes (Aviao × Sys) :=
  let c1 := checa_falha a env.t1 s.acidentes s.deadlocks
  let a1 := c1.2.1
  let s1 := { s with acidentes := c1.2.2.1, deadlocks := c1.2.2.2 }
  if c1.1 then .inl ⟨-1, a1, s1, []⟩
  else
    let w := aguardar_prioridade a1.tipo a1 env.tq env.saidaFalha s1
    let c2 := checa_falha w.1 env.t2 w.2.acidentes w.2.deadlocks
    let a3 := c2.2.1
    let s3 := { w.2 with acidentes := c2.2.2.1, deadlocks := c2.2.2.2 }
    if c2.1 then .inl ⟨-1, a3, liberar_prioridade a3.tipo s3, []⟩
    else .inr (a3, s3)

/-- Body of pouso in So-final.c after the checkpoints (lines 305-360):
reservation of the remaining need (1 pista + 1 torre minus held flags),
physical acquisition in the order torre then pista with rollback, then
release of everything and credit of the full need. -/
def pouso_core (a3 : Aviao) (s3 : Sys) (env : FaseEnv) : FaseRes :=
  let a4 := { a3 with inicio_pouso := env.tini }
  let np : Int := if a4.has_pista then 0 else 1
  let ng : Int := 0
  let nt : Int := if a4.has_torre then 0 else 1
  match env.rr with
  | .ok =>
    let s4 := { s3 with pool := s3.pool.debita np ng nt }
    let tr0 := [Ev.reserva np ng nt]
    if a4.has_torre = false ∧ env.okTorre = false then
      ⟨-1, a4, liberar_prioridade a4.tipo (s4.liberar_reserva np ng nt),
        tr0 ++ [Ev.credita np ng nt]⟩
    else
      let a5 := if a4.has_torre then a4 else { a4 with has_torre := true }
      let s5 := if a4.has_torre then s4
        else { s4 with sem_torres := s4.sem_torres - 1 }
      let tr5 := if a4.has_torre then tr0 else tr0 ++ [Ev.semAcq .torre]
      if a5.has_pista = false ∧ env.okPista = false then
        let a6 := if a5.has_torre then { a5 with has_torre := false } else a5
        let s6 := if a5.has_torre then
          { s5 with sem_torres := s5.sem_torres + 1 } else s5
        let tr6 := if a5.has_torre then tr5 ++ [Ev.semRel .torre] else tr5
        ⟨-1, a6, liberar_prioridade a6.tipo (s6.liberar_reserva np ng nt),
          tr6 ++ [Ev.credita np ng nt]⟩
      else
        let a6 := if a5.has_pista then a5 else { a5 with has_pista := true }
        let s6 := if a5.has_pista then s5
          else { s5 with sem_pistas := s5.sem_pistas - 1 }
        let tr6 := if a5.has_pista then tr5 else tr5 ++ [Ev.semAcq .pista]
        let a7 := if a6.has_pista then { a6 with has_pista := false } else a6
        let s7 := if a6.has_pista then
          { s6 with sem_pistas := s6.sem_pistas + 1 } else s6
        let tr7 := if a6.has_pista then tr6 ++ [Ev.semRel .pista] else tr6
        let a8 := if a7.has_torre then { a7 with has_torre := false } else a7
        let s8 := if a7.has_torre then
          { s7 with sem_torres := s7.sem_torres + 1 } else s7
        let tr8 := if a7.has_torre then tr7 ++ [Ev.semRel .torre] else tr7
        let s9 := s8.liberar_reserva np ng nt
        let a9 := { a8 with
          fim_pouso := env.tfim,
          ultimo_tempo_espera := env.tfim,
          em_alerta_critico := false,
          status_final :=
            if a8.status_final = .ALERTA_CRITICO then .SUCESSO
            else a8.status_final }
        ⟨0, a9, liberar_prioridade a9.tipo s9, tr8 ++ [Ev.credita np ng nt]⟩
  | .timeout =>
    ⟨-1, { a4 with status_final := .FALHA }, liberar_prioridade a4.tipo s3, []⟩
  | .simEncerrada => ⟨-2, a4, liberar_prioridade a4.tipo s3, []⟩
  | .aviaoFalhou => ⟨-3, a4, liberar_prioridade a4.tipo s3, []⟩

/-- pouso of So-final.c (lines 300-361): the common prologue followed by
the pouso body. -/
def pouso (a : Aviao) (s : Sys) (env : FaseEnv) : FaseRes :=
  match prologo a s env with
  | .inl r => r
  | .inr p => pouso_core p.1 p.2 env

/-- Body of desembarque in So-final.c after the checkpoints (lines
369-424): needs 1 portao + 1 torre minus held flags, acquires torre then
portao with rollback, then releases the torre and credits its part
immediately, holds the portao through the extra occupancy sleep, and only
then releases the portao and credits its part. -/
def desembarque_core (a3 : Aviao) (s3 : Sys) (env : FaseEnv) : FaseRes :=
  let a4 := { a3 with inicio_desembarque := env.tini }
  let np : Int := 0
  let ng : Int := if a4.has_portao then 0 else 1
  let nt : Int := if a4.has_torre then 0 else 1
  match env.rr with
  | .ok =>
    let s4 := { s3 with pool := s3.pool.debita np ng nt }
    let tr0 := [Ev.reserva np ng nt]
    if a4.has_torre = false ∧ env.okTorre = false then
      ⟨-1, a4, liberar_prioridade a4.tipo (s4.liberar_reserva np ng nt),
        tr0 ++ [Ev.credita np ng nt]⟩
    else
      let a5 := if a4.has_torre then a4 else { a4 with has_torre := true }
      let s5 := if a4.has_torre then s4
        else { s4 with sem_torres := s4.sem_torres - 1 }
      let tr5 := if a4.has_torre then tr0 else tr0 ++ [Ev.semAcq .torre]
      if a5.has_portao = false ∧ env.okPortao = false then
        let a6 := if a5.has_torre then { a5 with has_torre := false } else a5
        let s6 := if a5.has_torre then
          { s5 with sem_torres := s5.sem_torres + 1 } else s5
        let tr6 := if a5.has_torre then tr5 ++ [Ev.semRel .torre] else tr5
        ⟨-1, a6, liberar_prioridade a6.tipo (s6.liberar_reserva np ng nt),
          tr6 ++ [Ev.credita np ng nt]⟩
      else
        let a6 := if a5.has_portao then a5 else { a5 with has_portao := true }
        let s6 := if a5.has_portao then s5
          else { s5 with sem_portoes := s5.sem_portoes - 1 }
        let tr6 := if a5.has_portao then tr5 else tr5 ++ [Ev.semAcq .portao]
        let a7 := if a6.has_torre then { a6 with has_torre := false } else a6
        let s7 := if a6.has_torre then
          { s6 with sem_torres := s6.sem_torres + 1 } else s6
        let tr7 := if a6.has_torre then tr6 ++ [Ev.semRel .torre] else tr6
        let s7b := s7.liberar_reserva 0 0 nt
        let tr7b := tr7 ++ [Ev.credita 0 0 nt]
        let a8 := if a7.has_portao then { a7 with has_portao := false } else a7
        let s8 := if a7.has_portao then
          { s7b with sem_portoes := s7b.sem_portoes + 1 } else s7b
        let tr8 := if a7.has_portao then tr7b ++ [Ev.semRel .portao] else tr7b
        let s9 := s8.liberar_reserva 0 ng 0
        let a9 := { a8 with
          fim_desembarque := env.tfim,
          ultimo_tempo_espera := env.tfim,
          em_alerta_critico := false,
          status_final :=
            if a8.status_final = .ALERTA_CRITICO then .SUCESSO
            else a8.status_final }
        ⟨0, a9, liberar_prioridade a9.tipo s9, tr8 ++ [Ev.credita 0 ng 0]⟩
  | .timeout =>
    ⟨-1, { a4 with status_final := .FALHA }, liberar_prioridade a4.tipo s3, []⟩
  | .simEncerrada => ⟨-2, a4, liberar_prioridade a4.tipo s3, []⟩
  | .aviaoFalhou => ⟨-3, a4, liberar_prioridade a4.tipo s3, []⟩

/-- desembarque of So-final.c (lines 364-425). -/
def desembarque (a : Aviao) (s : Sys) (env : FaseEnv) : FaseRes :=
  match prologo a s env with
  | .inl r => r
  | .inr p => desembarque_core p.1 p.2 env

/-- Body of decolagem in So-final.c after the checkpoints (lines 433-497):
needs 1 pista + 1 portao + 1 torre minus held flags, acquires torre then
portao then pista with full rollback of what was acquired, then releases
torre, portao, pista and credits the full need. -/
def decolagem_core (a3 : Aviao) (s3 : Sys) (env : FaseEnv) : FaseRes :=
  let a4 := { a3 with inicio_decolagem := env.tini }
  let np : Int := if a4.has_pista then 0 else 1
  let ng : Int := if a4.has_portao then 0 else 1
  let nt : Int := if a4.has_torre then 0 else 1
  match env.rr with
  | .ok =>
    let s4 := { s3 with pool := s3.pool.debita np ng nt }
    let tr0 := [Ev.reserva np ng nt]
    if a4.has_torre = false ∧ env.okTorre = false then
      ⟨-1, a4, liberar_prioridade a4.tipo (s4.liberar_reserva np ng nt),
        tr0 ++ [Ev.credita np ng nt]⟩
    else
      let a5 := if a4.has_torre then a4 else { a4 with has_torre := true }
      let s5 := if a4.has_torre then s4
        else { s4 with sem_torres := s4.sem_torres - 1 }
      let tr5 := if a4.has_torre then tr0 else tr0 ++ [Ev.semAcq .torre]
      if a5.has_portao = false ∧ env.okPortao = false then
        let a6 := if a5.has_torre then { a5 with has_torre := false } else a5
        let s6 := if a5.has_torre then
          { s5 with sem_torres := s5.sem_torres + 1 } else s5
        let tr6 := if a5.has_torre then tr5 ++ [Ev.semRel .torre] else tr5
        ⟨-1, a6, liberar_prioridade a6.tipo (s6.liberar_reserva np ng nt),
          tr6 ++ [Ev.credita np ng nt]⟩
      else
        let a6 := if a5.has_portao then a5 else { a5 with has_portao := true }
        let s6 := if a5.has_portao then s5
          else { s5 with sem_portoes := s5.sem_portoes - 1 }
        let tr6 := if a5.has_portao then tr5 else tr5 ++ [Ev.semAcq .portao]
        if a6.has_pista = false ∧ env.okPista = false then
          let a7 := if a6.has_portao then { a6 with has_portao := false }
            else a6
          let s7 := if a6.has_portao then
            { s6 with sem_portoes := s6.sem_portoes + 1 } else s6
          let tr7 := if a6.has_portao then tr6 ++ [Ev.semRel .portao] else tr6
          let a8 := if a7.has_torre then { a7 with has_torre := false } else a7
          let s8 := if a7.has_torre then
            { s7 with sem_torres := s7.sem_torres + 1 } else s7
          let tr8 := if a7.has_torre then tr7 ++ [Ev.semRel .torre] else tr7
          ⟨-1, a8, liberar_prioridade a8.tipo (s8.liberar_reserva np ng nt),
            tr8 ++ [Ev.credita np ng nt]⟩
        else
          let a7 := if a6.has_pista then a6 else { a6 with has_pista := true }
          let s7 := if a6.has_pista then s6
            else { s6 with sem_pistas := s6.sem_pistas - 1 }
          let tr7 := if a6.has_pista then tr6 else tr6 ++ [Ev.semAcq .pista]
          let a8 := if a7.has_torre then { a7 with has_torre := false } else a7
          let s8 := if a7.has_torre then
            { s7 with sem_torres := s7.sem_torres + 1 } else s7
          let tr8 := if a7.has_torre then tr7 ++ [Ev.semRel .torre] else tr7
          let a9 := if a8.has_portao then { a8 with has_portao := false }
            else a8
          let s9 := if a8.has_portao then
            { s8 with sem_portoes := s8.sem_portoes + 1 } else s8
          let tr9 := if a8.has_portao then tr8 ++ [Ev.semRel .portao] else tr8
          let a10 := if a9.has_pista then { a9 with has_pista := false }
            else a9
          let s10 := if a9.has_pista then
            { s9 with sem_pistas := s9.sem_pistas + 1 } else s9
          let tr10 := if a9.has_pista then tr9 ++ [Ev.semRel .pista] else tr9
          let s11 := s10.liberar_reserva np ng nt
          let a11 := { a10 with
            fim_decolagem := env.tfim,
            ultimo_tempo_espera := env.tfim,
            em_alerta_critico := false,
            status_final :=
              if a10.status_final = .ALERTA_CRITICO then .SUCESSO
              else a10.status_final }
          ⟨0, a11, liberar_prioridade a11.tipo s11,
            tr10 ++ [Ev.credita np ng nt]⟩
  | .timeout =>
    ⟨-1, { a4 with status_final := .FALHA }, liberar_prioridade a4.tipo s3, []⟩
  | .simEncerrada => ⟨-2, a4, liberar_prioridade a4.tipo s3, []⟩
  | .aviaoFalhou => ⟨-3, a4, liberar_prioridade a4.tipo s3, []⟩

/-- decolagem of So-final.c (lines 428-498). -/
def decolagem (a : Aviao) (s : Sys) (env : FaseEnv) : FaseRes :=
  match prologo a s env with
  | .inl r => r
  | .inr p => decolagem_core p.1 p.2 env

/-- Per-thread environment: initial wait-start time, then per phase the
inter-phase wait-start update time and the phase environment
(So-final.c lines 504-522). -/
structure ThreadEnv where
  t0 : Int
  e1 : FaseEnv
  tA : Int
  e2 : FaseEnv
  tB : Int
  e3 : FaseEnv
deriving DecidableEq

/-- aviao_thread of So-final.c (lines 501-533): clears the progress flags,
runs pouso, desembarque, decolagem in order, stops at the first nonzero
return, and marks SUCESSO when decolagem returns 0. -/
def aviao_thread (a0 : Aviao) (s : Sys) (te : ThreadEnv) :
    Aviao × Sys × List Ev :=
  let a := { a0 with
    ultimo_tempo_espera := te.t0,
    has_pista := false,
    has_portao := false,
    has_torre := false }
  let r1 := pouso a s te.e1
  if r1.ret ≠ 0 then (r1.a, r1.s, r1.tr)
  else
    let a2 := { r1.a with ultimo_tempo_espera := te.tA }
    let r2 := desembarque a2 r1.s te.e2
    if r2.ret ≠ 0 then (r2.a, r2.s, r1.tr ++ r2.tr)
    else
      let a3 := { r2.a with ultimo_tempo_espera := te.tB }
      let r3 := decolagem a3 r2.s te.e3
      if r3.ret ≠ 0 then (r3.a, r3.s, r1.tr ++ r2.tr ++ r3.tr)
      else ({ r3.a with status_final := .SUCESSO }, r3.s,
        r1.tr ++ r2.tr ++ r3.tr)

end SoFinal

namespace SoRefat

/-- Status values of So_refatorado_corrigido.c (line 53), which adds the
neutral initial state PENDENTE. -/
inductive StatusAviao where
  | PENDENTE
  | SUCESSO
  | FALHA
  | ALERTA_CRITICO
  | STARVATION
  | DEADLOCK
deriving DecidableEq

/-- Aircraft fields of So_refatorado_corrigido.c read or written by
verificar_starvation and checa_falha (lines 55-66). -/
structure Aviao where
  tipo : SoFinal.TipoVoo
  status_final : StatusAviao
  em_alerta_critico : Bool
  ultimo_tempo_espera : Int
deriving DecidableEq

/-- verificar_starvation of So_refatorado_corrigido.c (lines 97-126): same
shape as the So-final.c version, except the alert branch only overwrites a
PENDENTE status with ALERTA_CRITICO (line 109). -/
def verificar_starvation (a : Aviao) (agora : Int) (acidentes deadlocks : Int) :
    Aviao × Int × Int :=
  if a.status_final = .FALHA ∨ a.status_final = .STARVATION ∨
      a.status_final = .DEADLOCK then
    (a, acidentes, deadlocks)
  else
    let espera := agora - a.ultimo_tempo_espera
    if SoFinal.ALERTA_CRITICO_SECS ≤ espera ∧
        espera < SoFinal.TEMPO_MAXIMO_ESPERA ∧ a.em_alerta_critico = false then
      ({ a with
        em_alerta_critico := true,
        status_final :=
          if a.status_final = .PENDENTE then .ALERTA_CRITICO
          else a.status_final }, acidentes, deadlocks)
    else if SoFinal.TEMPO_MAXIMO_ESPERA ≤ espera then
      if a.tipo = .DOMESTICO then
        ({ a with status_final := .STARVATION }, acidentes + 1, deadlocks)
      else
        ({ a with status_final := .DEADLOCK }, acidentes, deadlocks + 1)
    else (a, acidentes, deadlocks)

/-- Status test of checa_falha in So_refatorado_corrigido.c (line 131):
unlike So-final.c it also reports DEADLOCK. -/
def eh_falha (s : StatusAviao) : Bool :=
  match s with
  | .FALHA => true
  | .STARVATION => true
  | .DEADLOCK => true
  | _ => false

/-- checa_falha of So_refatorado_corrigido.c (lines 128-134). -/
def checa_falha (a : Aviao) (agora : Int) (acidentes deadlocks : Int) :
    Bool × Aviao × Int × Int :=
  let r := verificar_starvation a agora acidentes deadlocks
  (eh_falha r.1.status_final, r)

/-- Yield test of reservar_recursos in So_refatorado_corrigido.c
(line 143): domestico_deve_esperar. -/
def domestico_deve_esperar (tipo : SoFinal.TipoVoo) (alerta : Bool)
    (espInt : Int) : Prop :=
  tipo = .DOMESTICO ∧ 0 < espInt ∧ alerta = false

instance (tipo : SoFinal.TipoVoo) (alerta : Bool) (espInt : Int) :
    Decidable (domestico_deve_esperar tipo alerta espInt) := by
  unfold domestico_deve_esperar
  infer_instance

/-- Grant decision of one iteration of reservar_recursos in
So_refatorado_corrigido.c (lines 142-148). -/
def tenta_alocar (o : SoFinal.ObsReserva) (np ng nt : Int) :
    Option SoFinal.Pool :=
  if domestico_deve_esperar o.tipo o.em_alerta_critico
      o.esperando_internacional then none
  else if o.pool.suficiente np ng nt then some (o.pool.debita np ng nt)
  else none

end SoRefat

namespace SoC

open SoFinal (TipoVoo Recurso)

/-- Aircraft states of So.c (lines 67-77). -/
inductive EstadoAviao where
  | EST_CRIADO
  | EST_AGUARDANDO_POUSO
  | EST_POUSANDO
  | EST_AGUARDANDO_DESEMBARQUE
  | EST_DESEMBARCANDO
  | EST_AGUARDANDO_DECOLAGEM
  | EST_DECOLANDO
  | EST_FINALIZADO
  | EST_FALHA
deriving DecidableEq

/-- Aircraft fields of So.c read or written by checa_starvation
(lines 79-91). -/
structure Aviao where
  tipo : TipoVoo
  estado : EstadoAviao
  inicio_espera : Int
  alertas_starvation : Int
  falhou : Bool
  boosted : Bool
  prioridade_base : Int
  prioridade_efetiva : Int
deriving DecidableEq

/-- checa_starvation of So.c (lines 155-179): at 60 seconds of wait with no
prior alert it applies the aging boost (boosted, prioridade_efetiva = 3)
and counts an alert; at 90 seconds it marks the aircraft failed.  Returns
the updated aircraft, the updated (total_boosts, total_alertas_starvation,
total_falha) counters, and the int return value (1 when the aircraft
fell). -/
def checa_starvation (a : Aviao) (t : Int)
    (total_boosts total_alertas total_falha : Int) :
    Aviao × Int × Int × Int × Bool :=
  let espera := t - a.inicio_espera
  let r1 :=
    if a.falhou = false ∧ 60 ≤ espera ∧ a.alertas_starvation = 0 then
      if a.boosted = false then
        ({ a with
          alertas_starvation := a.alertas_starvation + 1,
          boosted := true,
          prioridade_efetiva := 3 }, total_boosts + 1, total_alertas + 1)
      else
        ({ a with alertas_starvation := a.alertas_starvation + 1 },
          total_boosts, total_alertas + 1)
    else (a, total_boosts, total_alertas)
  let a1 := r1.1
  if a1.falhou = false ∧ 90 ≤ espera then
    ({ a1 with falhou := true, estado := .EST_FALHA },
      r1.2.1, r1.2.2, total_falha + 1, true)
  else (a1, r1.2.1, r1.2.2, total_falha, false)

/-- Acquisition order of fase_pouso in So.c (lines 239-240): pista then
torre for Internacional, torre then pista for Domestico. -/
def ordemPouso : TipoVoo → List Recurso
  | .INTERNACIONAL => [.pista, .torre]
  | .DOMESTICO => [.torre, .pista]

/-- Acquisition order of fase_desembarque in So.c (lines 295-296). -/
def ordemDesembarque : TipoVoo → List Recurso
  | .INTERNACIONAL => [.portao, .torre]
  | .DOMESTICO => [.torre, .portao]

/-- Acquisition order of fase_decolagem in So.c (lines 351-352): portao,
pista, torre for Internacional and torre, portao, pista for Domestico; the
same orders appear in adquirir_fase of So_restrito.c (line 115). -/
def ordemDecolagem : TipoVoo → List Recurso
  | .INTERNACIONAL => [.portao, .pista, .torre]
  | .DOMESTICO => [.torre, .portao, .pista]

end SoC

namespace SoRestrito

open SoFinal (TipoVoo Recurso)

/-- Resource order chosen by adquirir_fase of So_restrito.c
(lines 113-115) per phase (0 pouso, 1 desembarque, 2 decolagem) and flight
type. -/
def ordem (tipo : TipoVoo) (fase : Nat) : List Recurso :=
  if fase = 0 then
    match tipo with
    | .INTERNACIONAL => [.pista, .torre]
    | .DOMESTICO => [.torre, .pista]
  else if fase = 1 then
    match tipo with
    | .INTERNACIONAL => [.portao, .torre]
    | .DOMESTICO => [.torre, .portao]
  else
    match tipo with
    | .INTERNACIONAL => [.portao, .pista, .torre]
    | .DOMESTICO => [.torre, .portao, .pista]

/-- Rollback of adquirir_fase in So_restrito.c (line 143): post every
semaphore already acquired in this pass, in acquisition order. -/
def postAll : List Recurso → (Recurso → Int) → (Recurso → Int)
  | [], sem => sem
  | r :: resto, sem => postAll resto (Function.update sem r (sem r + 1))

/-- Number of occurrences of a resource in a list, as an integer (used to
reason about the net semaphore effect of a rollback). -/
def contagem (x : Recurso) : List Recurso → Int
  | [] => 0
  | r :: t => (if r = x then 1 else 0) + contagem x t

/-- Outcome of the timed trywait poll loop on one resource in
adquirir_fase of So_restrito.c (lines 134-139): ok when sem_trywait
eventually succeeds (line 135), timeout when TIMEOUT_RECURSO elapses first
(line 138), falha when checa_starvation marks the aircraft failed during
the wait (line 137) and the inner loop breaks with the resource not
acquired. -/
inductive ResPoll where
  | ok
  | timeout
  | falha
deriving DecidableEq

/-- Result of one pass of the acquisition for-loop of adquirir_fase in
So_restrito.c (lines 125-150): completa when the whole order list was
acquired (RECURSOS_OK return 0, line 151); retry when a per-resource
timeout triggered the rollback block (lines 141-146) and the outer while
retries; falha when a->falhou was set mid-pass, so line 140 breaks out of
the for-loop and line 150 returns -1. -/
inductive ResPasso where
  | completa
  | retry
  | falha
deriving DecidableEq

/-- One pass of the acquisition for-loop of adquirir_fase in So_restrito.c
(lines 125-150), with an oracle giving the poll outcome of each resource.
On ok the semaphore is decremented and the resource appended to the held
accumulator.  On timeout (acquired != i+1, line 141) every semaphore
acquired in the pass is posted back and the held list emptied
(acquired = 0, lines 143-145).  On falha the pass stops at once (line 140
breaks before the rollback block) and line 150 returns -1 with the
semaphores acquired earlier in the pass still held and not posted back.
Returns the semaphore counters, the held resources, and the pass
result. -/
def passo_aquisicao (ox : Recurso → ResPoll) :
    List Recurso → List Recurso → (Recurso → Int) →
    (Recurso → Int) × List Recurso × ResPasso
  | [], acquired, sem => (sem, acquired, .completa)
  | r :: resto, acquired, sem =>
    match ox r with
    | .ok =>
      passo_aquisicao ox resto (acquired ++ [r])
        (Function.update sem r (sem r - 1))
    | .timeout => (postAll acquired sem, [], .retry)
    | .falha => (sem, acquired, .falha)

end SoRestrito

namespace Ledger

open SoFinal (Recurso)

/-- Global ledger state for the capacity-conservation analysis of
So-final.c: the reservation-gate counters (pistas_disp, portoes_disp,
torres_disp), the outstanding reservation debit of each aircraft (debited
by reservar_recursos, credited back by liberar_reserva), and the progress
flags has_pista, has_portao, has_torre of each aircraft (as 0/1
integers). -/
structure St (n : Nat) where
  pool : Recurso → Int
  res : Fin n → Recurso → Int
  flag : Fin n → Recurso → Int

/-- Interleaved steps of the So-final.c phase operations, one transition
per atomic action on the shared ledger.
reserve: a grant inside reservar_recursos (lines 199-202, 211-214) — the
aircraft calls it once per phase, with no outstanding debit and no held
flag (the needs are computed against cleared flags at phase entry), and
only when all counters suffice.
acquire: a sem_wait success that sets a progress flag (e.g. lines
326-339), only for a resource inside the current reservation and not yet
held.
relPhys: a sem_post that clears a held flag (e.g. lines 346-347).
credit: a liberar_reserva call (lines 235-242) crediting back part of the
outstanding debit; every path in So-final.c clears the flag of a resource
before crediting its debit back, so credited components are unheld. -/
inductive Step (n : Nat) : St n → St n → Prop
  | reserve (s : St n) (i : Fin n) (c : Recurso → Int)
      (hc0 : ∀ x, 0 ≤ c x)
      (hsuf : ∀ x, c x ≤ s.pool x)
      (hres : ∀ x, s.res i x = 0)
      (hflag : ∀ x, s.flag i x = 0) :
      Step n s ⟨fun x => s.pool x - c x, Function.update s.res i c, s.flag⟩
  | acquire (s : St n) (i : Fin n) (x : Recurso)
      (hres : 1 ≤ s.res i x) (hflag : s.flag i x = 0) :
      Step n s ⟨s.pool, s.res,
        Function.update s.flag i (Function.update (s.flag i) x 1)⟩
  | relPhys (s : St n) (i : Fin n) (x : Recurso)
      (hflag : s.flag i x = 1) :
      Step n s ⟨s.pool, s.res,
        Function.update s.flag i (Function.update (s.flag i) x 0)⟩
  | credit (s : St n) (i : Fin n) (c : Recurso → Int)
      (hc0 : ∀ x, 0 ≤ c x)
      (hcr : ∀ x, c x ≤ s.res i x)
      (hfl : ∀ x, 1 ≤ c x → s.flag i x = 0) :
      Step n s ⟨fun x => s.pool x + c x,
        Function.update s.res i (fun x => s.res i x - c x), s.flag⟩

/-- Initial ledger state set by inicializarRecursos of So-final.c
(lines 86-96): counters at capacity, no debits, no flags. -/
def init (n : Nat) (cap : Recurso → Int) : St n :=
  ⟨cap, fun _ _ => 0, fun _ _ => 0⟩

/-- States reachable from the initial state by any interleaving of the
ledger steps. -/
inductive Reachable (n : Nat) (cap : Recurso → Int) : St n → Prop
  | init : Reachable n cap (init n cap)
  | step {s t : St n} : Reachable n cap s → Step n s t → Reachable n cap t

/-- Ledger invariant: per class, the counter plus all outstanding debits
equals the capacity; the counter and debits are nonnegative; and every
held flag is a 0/1 value backed by an outstanding debit of its class. -/
def Inv (n : Nat) (cap : Recurso → Int) (s : St n) : Prop :=
  (∀ x, s.pool x + ∑ i, s.res i x = cap x) ∧
  (∀ x, 0 ≤ s.pool x) ∧
  (∀ i x, 0 ≤ s.res i x) ∧
  (∀ i x, 0 ≤ s.flag i x ∧ s.flag i x ≤ s.res i x)

/-- Default capacities of So-final.c (lines 34-36): 3 pistas, 5 portoes,
2 torres. -/
def cap3 : Recurso → Int := fun x =>
  match x with
  | .pista => 3
  | .portao => 5
  | .torre => 2

/-- Remaining need of a pouso with no held flags: 1 pista and 1 torre
(So-final.c lines 309-311). -/
def needPouso : Recurso → Int := fun x =>
  match x with
  | .pista => 1
  | .portao => 0
  | .torre => 1

end Ledger

namespace SoFinal

/-- Reservation debits appearing in an event trace, in order. -/
def reservas : List Ev → List (Int × Int × Int)
  | [] => []
  | .reserva np ng nt :: t => (np, ng, nt) :: reservas t
  | _ :: t => reservas t

/-- Gate credits (liberar_reserva amounts) appearing in an event trace, in
order. -/
def creditos : List Ev → List (Int × Int × Int)
  | [] => []
  | .credita np ng nt :: t => (np, ng, nt) :: creditos t
  | _ :: t => creditos t

/-- Physical acquisitions appearing in an event trace, in order. -/
def aquisicoes : List Ev → List Recurso
  | [] => []
  | .semAcq r :: t => r :: aquisicoes t
  | _ :: t => aquisicoes t

/-- Componentwise sum of a list of resource triples. -/
def somaTriplas : List (Int × Int × Int) → Int × Int × Int
  | [] => (0, 0, 0)
  | c :: t =>
    let r := somaTriplas t
    (c.1 + r.1, c.2.1 + r.2.1, c.2.2 + r.2.2)

end SoFinal

namespace SoFinal

/-- With less than 60 seconds of accumulated wait, verificar_starvation
leaves the record and the counters unchanged (both branches of the alert
test are off). -/
theorem verificar_noop {a : Aviao} {t ac dl : Int}
    (h : t - a.ultimo_tempo_espera < 60) :
    verificar_starvation a t ac dl = (a, ac, dl) := by
  unfold verificar_starvation
  by_cases hg : a.status_final = .FALHA ∨ a.status_final = .STARVATION ∨
      a.status_final = .DEADLOCK
  · rw [if_pos hg]
  · rw [if_neg hg]
    have h1 : ¬(ALERTA_CRITICO_SECS ≤ t - a.ultimo_tempo_espera ∧
        t - a.ultimo_tempo_espera < TEMPO_MAXIMO_ESPERA ∧
        a.em_alerta_critico = false) := by
      rintro ⟨h60, -, -⟩
      rw [ALERTA_CRITICO_SECS] at h60
      omega
    have h2 : ¬(TEMPO_MAXIMO_ESPERA ≤ t - a.ultimo_tempo_espera) := by
      rw [TEMPO_MAXIMO_ESPERA]
      omega
    simp only [if_neg h1, if_neg h2]

/-- With less than 60 seconds of accumulated wait, checa_falha reduces to
the pure status test. -/
theorem checa_noop {a : Aviao} {t ac dl : Int}
    (h : t - a.ultimo_tempo_espera < 60) :
    checa_falha a t ac dl = (eh_falha a.status_final, a, ac, dl) := by
  unfold checa_falha
  rw [verificar_noop h]

/-- Characterization of a successful single-iteration grant in
reservar_recursos of So-final.c. -/
theorem tenta_alocar_eq_some {o : ObsReserva} {np ng nt : Int} {p : Pool} :
    tenta_alocar o np ng nt = some p ↔
      o.pool.suficiente np ng nt ∧ p = o.pool.debita np ng nt ∧
        (o.em_alerta_critico = true ∨
          ¬(o.tipo = .DOMESTICO ∧ 0 < o.esperando_internacional)) := by
  unfold tenta_alocar
  by_cases ha : o.em_alerta_critico
  · by_cases hs : o.pool.suficiente np ng nt
    · simp [ha, hs, eq_comm]
    · simp [ha, hs]
  · by_cases hy : o.tipo = .DOMESTICO ∧ 0 < o.esperando_internacional
    · simp [ha, hy]
    · by_cases hs : o.pool.suficiente np ng nt
      · simp [ha, hy, hs, eq_comm, and_comm]
      · simp [ha, hy, hs]

/-- A granted reservar_recursos call got its grant from one of the
observed wakeups. -/
theorem reservar_ok_mem {np ng nt : Int} {p : Pool} :
    ∀ {obs : List ObsReserva}, reservar_recursos np ng nt obs = .ok p →
      ∃ o ∈ obs, o.simulacao_ativa = true ∧ o.falha = false ∧
        tenta_alocar o np ng nt = some p := by
  intro obs
  induction obs with
  | nil => intro h; simp [reservar_recursos] at h
  | cons o resto ih =>
    intro h
    unfold reservar_recursos at h
    by_cases ha : o.simulacao_ativa = false
    · rw [if_pos ha] at h; exact absurd h (by simp)
    · rw [if_neg ha] at h
      by_cases hf : o.falha
      · rw [if_pos hf] at h; exact absurd h (by simp)
      · rw [if_neg hf] at h
        rcases hg : tenta_alocar o np ng nt with - | q
        · rw [hg] at h
          obtain ⟨o1, ho1, h1, h2, h3⟩ := ih h
          exact ⟨o1, List.mem_cons_of_mem _ ho1, h1, h2, h3⟩
        · rw [hg] at h
          refine ⟨o, List.mem_cons_self o resto, ?_, by simpa using hf, ?_⟩
          · cases h' : o.simulacao_ativa
            · exact absurd h' ha
            · rfl
          · cases h
            exact hg

end SoFinal

/-- C1.  The pool reservation operation reservar_recursos is all-or-nothing
and class-prioritized: an ok return comes from a wakeup at which all three
counters were at least the requested amounts and debits exactly those
amounts; an iteration with insufficient availability allocates nothing; a
non-critical Domestic request is never granted while
esperando_internacional is positive; an aircraft whose critical-alert flag
is set is granted whenever availability suffices, regardless of the
International contending count; and the grant decision of
So_refatorado_corrigido.c coincides with that of So-final.c. -/
theorem c1_reserva_atomica (np ng nt : Int) (obs : List SoFinal.ObsReserva)
    (p : SoFinal.Pool) :
    (SoFinal.reservar_recursos np ng nt obs = .ok p →
      ∃ o ∈ obs, o.pool.suficiente np ng nt ∧ p = o.pool.debita np ng nt ∧
        (o.em_alerta_critico = true ∨
          ¬(o.tipo = .DOMESTICO ∧ 0 < o.esperando_internacional))) ∧
    (∀ o : SoFinal.ObsReserva, ¬ o.pool.suficiente np ng nt →
      SoFinal.tenta_alocar o np ng nt = none) ∧
    (∀ o : SoFinal.ObsReserva, o.tipo = .DOMESTICO →
      o.em_alerta_critico = false → 0 < o.esperando_internacional →
      SoFinal.tenta_alocar o np ng nt = none) ∧
    (∀ o : SoFinal.ObsReserva, o.em_alerta_critico = true →
      o.pool.suficiente np ng nt →
      SoFinal.tenta_alocar o np ng nt = some (o.pool.debita np ng nt)) ∧
    (∀ o : SoFinal.ObsReserva,
      SoRefat.tenta_alocar o np ng nt = SoFinal.tenta_alocar o np ng nt) := by
  refine ⟨?_, ?_, ?_, ?_, ?_⟩
  · intro h
    obtain ⟨o, ho, -, -, hg⟩ := SoFinal.reservar_ok_mem h
    obtain ⟨h1, h2, h3⟩ := SoFinal.tenta_alocar_eq_some.mp hg
    exact ⟨o, ho, h1, h2, h3⟩
  · intro o hs
    rcases hg : SoFinal.tenta_alocar o np ng nt with - | q
    · rfl
    · exact absurd (SoFinal.tenta_alocar_eq_some.mp hg).1 hs
  · intro o htipo halerta hint
    rcases hg : SoFinal.tenta_alocar o np ng nt with - | q
    · rfl
    · obtain ⟨-, -, h3⟩ := SoFinal.tenta_alocar_eq_some.mp hg
      rcases h3 with h3 | h3
      · rw [halerta] at h3; cases h3
      · exact absurd ⟨htipo, hint⟩ h3
  · intro o ha hs
    exact SoFinal.tenta_alocar_eq_some.mpr ⟨hs, rfl, Or.inl ha⟩
  · intro o
    unfold SoRefat.tenta_alocar SoFinal.tenta_alocar
      SoRefat.domestico_deve_esperar
    by_cases ha : o.em_alerta_critico
    · by_cases hy : o.tipo = SoFinal.TipoVoo.DOMESTICO ∧
          0 < o.esperando_internacional
      · simp [ha, hy]
      · simp [ha, hy]
    · by_cases hy : o.tipo = SoFinal.TipoVoo.DOMESTICO ∧
          0 < o.esperando_internacional
      · simp [ha, hy]
      · simp [ha, hy]

/-- C1 witness: a concrete grant (a Domestic aircraft in critical alert is
served despite two contending International units), a concrete
insufficient-pool denial, a concrete yield denial, and a concrete
exemption grant. -/
theorem c1_reserva_atomica_witness :
    (∃ o ∈ [(⟨true, false, true, .DOMESTICO, 2, ⟨3, 5, 2⟩⟩ :
        SoFinal.ObsReserva)],
      o.pool.suficiente 1 0 1 ∧
        (⟨2, 5, 1⟩ : SoFinal.Pool) = o.pool.debita 1 0 1 ∧
        (o.em_alerta_critico = true ∨
          ¬(o.tipo = .DOMESTICO ∧ 0 < o.esperando_internacional))) ∧
    SoFinal.tenta_alocar ⟨true, false, false, .INTERNACIONAL, 0, ⟨0, 0, 0⟩⟩
      1 0 1 = none ∧
    SoFinal.tenta_alocar ⟨true, false, false, .DOMESTICO, 3, ⟨3, 5, 2⟩⟩
      1 0 1 = none ∧
    SoFinal.tenta_alocar ⟨true, false, true, .DOMESTICO, 3, ⟨3, 5, 2⟩⟩
      1 0 1 = some ((⟨3, 5, 2⟩ : SoFinal.Pool).debita 1 0 1) := by
  refine ⟨?_, ?_, ?_, ?_⟩
  · exact (c1_reserva_atomica 1 0 1 _ ⟨2, 5, 1⟩).1 (by decide)
  · exact (c1_reserva_atomica 1 0 1 [] ⟨0, 0, 0⟩).2.1 _ (by decide)
  · exact (c1_reserva_atomica 1 0 1 [] ⟨0, 0, 0⟩).2.2.1 _ rfl rfl (by decide)
  · exact (c1_reserva_atomica 1 0 1 [] ⟨0, 0, 0⟩).2.2.2.1 _ rfl (by decide)

/-- C6.  The 90-second starvation check reclassifies strictly by flight
class, in both So-final.c and So_refatorado_corrigido.c: an aircraft not
already in a checked terminal state whose wait reaches 90 seconds becomes
STARVATION with the accident counter incremented when Domestic, and
DEADLOCK with the deadlock counter incremented when International; neither
class ever receives the reclassification of the other from this rule. -/
theorem c6_starvation_por_classe (a : SoFinal.Aviao) (agora ac dl : Int)
    (hterm : ¬(a.status_final = .FALHA ∨ a.status_final = .STARVATION ∨
      a.status_final = .DEADLOCK))
    (hwait : 90 ≤ agora - a.ultimo_tempo_espera) :
    (a.tipo = .DOMESTICO →
      SoFinal.verificar_starvation a agora ac dl =
        ({ a with status_final := .STARVATION }, ac + 1, dl)) ∧
    (a.tipo = .INTERNACIONAL →
      SoFinal.verificar_starvation a agora ac dl =
        ({ a with status_final := .DEADLOCK }, ac, dl + 1)) ∧
    (∀ b : SoRefat.Aviao,
      ¬(b.status_final = .FALHA ∨ b.status_final = .STARVATION ∨
        b.status_final = .DEADLOCK) →
      90 ≤ agora - b.ultimo_tempo_espera →
      (b.tipo = .DOMESTICO →
        SoRefat.verificar_starvation b agora ac dl =
          ({ b with status_final := .STARVATION }, ac + 1, dl)) ∧
      (b.tipo = .INTERNACIONAL →
        SoRefat.verificar_starvation b agora ac dl =
          ({ b with status_final := .DEADLOCK }, ac, dl + 1))) := by
  have key : ∀ tipo : SoFinal.TipoVoo,
      SoFinal.verificar_starvation a agora ac dl =
        (if a.tipo = .DOMESTICO then
          ({ a with status_final := .STARVATION }, ac + 1, dl)
        else ({ a with status_final := .DEADLOCK }, ac, dl + 1)) := by
    intro _
    unfold SoFinal.verificar_starvation
    rw [if_neg hterm]
    have h1 : ¬(SoFinal.ALERTA_CRITICO_SECS ≤ agora - a.ultimo_tempo_espera ∧
        agora - a.ultimo_tempo_espera < SoFinal.TEMPO_MAXIMO_ESPERA ∧
        a.em_alerta_critico = false) := by
      rintro ⟨-, hlt, -⟩
      rw [SoFinal.TEMPO_MAXIMO_ESPERA] at hlt
      omega
    have h2 : SoFinal.TEMPO_MAXIMO_ESPERA ≤ agora - a.ultimo_tempo_espera := by
      rw [SoFinal.TEMPO_MAXIMO_ESPERA]; omega
    simp only [if_neg h1, if_pos h2]
  refine ⟨?_, ?_, ?_⟩
  · intro htipo
    rw [key .DOMESTICO, if_pos htipo]
  · intro htipo
    rw [key .INTERNACIONAL, if_neg (by rw [htipo]; intro h; cases h)]
  · intro b hbterm hbwait
    have keyb : SoRefat.verificar_starvation b agora ac dl =
        (if b.tipo = .DOMESTICO then
          ({ b with status_final := .STARVATION }, ac + 1, dl)
        else ({ b with status_final := .DEADLOCK }, ac, dl + 1)) := by
      unfold SoRefat.verificar_starvation
      rw [if_neg hbterm]
      have h1 : ¬(SoFinal.ALERTA_CRITICO_SECS ≤
          agora - b.ultimo_tempo_espera ∧
          agora - b.ultimo_tempo_espera < SoFinal.TEMPO_MAXIMO_ESPERA ∧
          b.em_alerta_critico = false) := by
        rintro ⟨-, hlt, -⟩
        rw [SoFinal.TEMPO_MAXIMO_ESPERA] at hlt
        omega
      have h2 : SoFinal.TEMPO_MAXIMO_ESPERA ≤ agora - b.ultimo_tempo_espera := by
        rw [SoFinal.TEMPO_MAXIMO_ESPERA]; omega
      simp only [if_neg h1, if_pos h2]
    constructor
    · intro htipo
      rw [keyb, if_pos htipo]
    · intro htipo
      rw [keyb, if_neg (by rw [htipo]; intro h; cases h)]

/-- C6 witness: a Domestic aircraft in critical alert at 95 seconds of
wait becomes STARVATION with the accident counter going from 0 to 1. -/
theorem c6_starvation_por_classe_witness :
    SoFinal.verificar_starvation
      ⟨7, .DOMESTICO, .ALERTA_CRITICO, true, 0, false, false, false,
        0, 0, 0, 0, 0, 0⟩ 95 0 0 =
      (⟨7, .DOMESTICO, .STARVATION, true, 0, false, false, false,
        0, 0, 0, 0, 0, 0⟩, 1, 0) := by
  exact (c6_starvation_por_classe
    ⟨7, .DOMESTICO, .ALERTA_CRITICO, true, 0, false, false, false,
      0, 0, 0, 0, 0, 0⟩ 95 0 0 (by decide) (by decide)).1 rfl

namespace SoFinal

/-- verificar_starvation never touches the progress flags, the flight type
or the wait timestamp of the record. -/
theorem verificar_preserva_campos (a : Aviao) (t ac dl : Int) :
    (verificar_starvation a t ac dl).1.has_pista = a.has_pista ∧
    (verificar_starvation a t ac dl).1.has_portao = a.has_portao ∧
    (verificar_starvation a t ac dl).1.has_torre = a.has_torre ∧
    (verificar_starvation a t ac dl).1.tipo = a.tipo ∧
    (verificar_starvation a t ac dl).1.ultimo_tempo_espera =
      a.ultimo_tempo_espera := by
  simp only [verificar_starvation]
  split_ifs <;> simp

/-- A phase whose entry checkpoint reports failure stops in the prologue
with an immediate -1 result, an empty trace, and untouched shared
state apart from the checkpoint counters. -/
theorem prologo_curto (a : Aviao) (s : Sys) (env : FaseEnv)
    (h : (checa_falha a env.t1 s.acidentes s.deadlocks).1 = true) :
    prologo a s env = Sum.inl ⟨-1,
      (checa_falha a env.t1 s.acidentes s.deadlocks).2.1,
      { s with
        acidentes := (checa_falha a env.t1 s.acidentes s.deadlocks).2.2.1,
        deadlocks := (checa_falha a env.t1 s.acidentes s.deadlocks).2.2.2 },
      []⟩ := by
  simp only [prologo]
  rw [if_pos h]

end SoFinal

/-- C2 counterexample: checa_falha does not report every terminal status.
In So-final.c an aircraft whose status is already DEADLOCK is reported
non-failed (line 161 only tests FALHA and STARVATION), and in both files a
SUCESSO status is reported non-failed. -/
theorem c2_checa_falha_counterexample :
    SoFinal.eh_falha .DEADLOCK = false ∧
    (SoFinal.checa_falha
      ⟨9, .INTERNACIONAL, .DEADLOCK, false, 0, false, false, false,
        0, 0, 0, 0, 0, 0⟩ 0 0 0).1 = false ∧
    SoFinal.eh_falha .SUCESSO = false ∧
    SoRefat.eh_falha .SUCESSO = false := by decide

/-- C2 amended: the terminal-status predicate of checa_falha reports true
exactly for FALHA and STARVATION in So-final.c (DEADLOCK and SUCESSO are
not detected there) and exactly for FALHA, STARVATION and DEADLOCK in
So_refatorado_corrigido.c; and whenever checa_falha does report true at a
phase entry, that phase short-circuits to an immediate -1 return with an
empty event trace, leaving the reservation counters, the semaphores, the
priority counts and the progress flags untouched. -/
theorem c2_checa_falha_amended (a : SoFinal.Aviao) (s : SoFinal.Sys)
    (env : SoFinal.FaseEnv)
    (h : (SoFinal.checa_falha a env.t1 s.acidentes s.deadlocks).1 = true) :
    (∀ st : SoFinal.StatusAviao,
      SoFinal.eh_falha st = true ↔ st = .FALHA ∨ st = .STARVATION) ∧
    (∀ st : SoRefat.StatusAviao,
      SoRefat.eh_falha st = true ↔
        st = .FALHA ∨ st = .STARVATION ∨ st = .DEADLOCK) ∧
    ((SoFinal.pouso a s env).ret = -1 ∧ (SoFinal.pouso a s env).tr = [] ∧
      (SoFinal.pouso a s env).s.pool = s.pool ∧
      (SoFinal.pouso a s env).s.sem_pistas = s.sem_pistas ∧
      (SoFinal.pouso a s env).s.sem_portoes = s.sem_portoes ∧
      (SoFinal.pouso a s env).s.sem_torres = s.sem_torres ∧
      (SoFinal.pouso a s env).s.esperando_internacional =
        s.esperando_internacional ∧
      (SoFinal.pouso a s env).s.esperando_domestico = s.esperando_domestico ∧
      (SoFinal.pouso a s env).a.has_pista = a.has_pista ∧
      (SoFinal.pouso a s env).a.has_portao = a.has_portao ∧
      (SoFinal.pouso a s env).a.has_torre = a.has_torre) ∧
    ((SoFinal.desembarque a s env).ret = -1 ∧
      (SoFinal.desembarque a s env).tr = [] ∧
      (SoFinal.desembarque a s env).s.pool = s.pool ∧
      (SoFinal.desembarque a s env).a.has_pista = a.has_pista ∧
      (SoFinal.desembarque a s env).a.has_portao = a.has_portao ∧
      (SoFinal.desembarque a s env).a.has_torre = a.has_torre) ∧
    ((SoFinal.decolagem a s env).ret = -1 ∧
      (SoFinal.decolagem a s env).tr = [] ∧
      (SoFinal.decolagem a s env).s.pool = s.pool ∧
      (SoFinal.decolagem a s env).a.has_pista = a.has_pista ∧
      (SoFinal.decolagem a s env).a.has_portao = a.has_portao ∧
      (SoFinal.decolagem a s env).a.has_torre = a.has_torre) := by
  have hflags := SoFinal.verificar_preserva_campos a env.t1 s.acidentes
    s.deadlocks
  refine ⟨?_, ?_, ?_, ?_, ?_⟩
  · intro st; cases st <;> simp [SoFinal.eh_falha]
  · intro st; cases st <;> simp [SoRefat.eh_falha]
  · simp only [SoFinal.pouso, SoFinal.prologo_curto a s env h]
    simp only [SoFinal.checa_falha] at hflags ⊢
    simp [hflags.1, hflags.2.1, hflags.2.2.1]
  · simp only [SoFinal.desembarque, SoFinal.prologo_curto a s env h]
    simp only [SoFinal.checa_falha] at hflags ⊢
    simp [hflags.1, hflags.2.1, hflags.2.2.1]
  · simp only [SoFinal.decolagem, SoFinal.prologo_curto a s env h]
    simp only [SoFinal.checa_falha] at hflags ⊢
    simp [hflags.1, hflags.2.1, hflags.2.2.1]

/-- C2 amended witness: a STARVATION aircraft short-circuits pouso with
return -1 and an empty trace. -/
theorem c2_checa_falha_amended_witness :
    (SoFinal.pouso
      ⟨3, .DOMESTICO, .STARVATION, false, 0, false, false, false,
        0, 0, 0, 0, 0, 0⟩
      ⟨⟨3, 5, 2⟩, 3, 5, 2, 0, 0, 0, 0⟩
      ⟨0, 0, false, 0, 0, .ok, true, true, true, 1⟩).ret = -1 ∧
    (SoFinal.pouso
      ⟨3, .DOMESTICO, .STARVATION, false, 0, false, false, false,
        0, 0, 0, 0, 0, 0⟩
      ⟨⟨3, 5, 2⟩, 3, 5, 2, 0, 0, 0, 0⟩
      ⟨0, 0, false, 0, 0, .ok, true, true, true, 1⟩).tr = [] := by
  have h := c2_checa_falha_amended
    ⟨3, .DOMESTICO, .STARVATION, false, 0, false, false, false,
      0, 0, 0, 0, 0, 0⟩
    ⟨⟨3, 5, 2⟩, 3, 5, 2, 0, 0, 0, 0⟩
    ⟨0, 0, false, 0, 0, .ok, true, true, true, 1⟩ (by decide)
  exact ⟨h.2.2.1.1, h.2.2.1.2.1⟩

namespace Ledger

open SoFinal (Recurso)

/-- Sum over all aircraft of one component after updating one aircraft's
ledger entry. -/
theorem sum_update_comp {n : Nat} (f : Fin n → Recurso → Int) (i : Fin n)
    (c : Recurso → Int) (x : Recurso) :
    ∑ j, (Function.update f i c) j x = (∑ j, f j x) - f i x + c x := by
  have h : (fun j => (Function.update f i c) j x) =
      Function.update (fun j => f j x) i (c x) := by
    funext j
    by_cases hj : j = i
    · subst hj; simp
    · simp [Function.update_apply, hj]
  calc ∑ j, (Function.update f i c) j x
      = ∑ j, Function.update (fun j => f j x) i (c x) j := by rw [h]
    _ = (∑ j, f j x) - f i x + c x := by
        rw [Finset.sum_update_of_mem (Finset.mem_univ i)]
        have h2 := Finset.sum_erase_add Finset.univ (fun j => f j x)
          (Finset.mem_univ i)
        rw [Finset.sdiff_singleton_eq_erase]
        linarith

/-- The ledger invariant holds in the initial state. -/
theorem inv_init (n : Nat) (cap : Recurso → Int) (hcap : ∀ x, 0 ≤ cap x) :
    Inv n cap (init n cap) := by
  refine ⟨?_, ?_, ?_, ?_⟩
  · intro x; simp [init]
  · intro x; exact hcap x
  · intro i x; simp [init]
  · intro i x; simp [init]

/-- Every ledger step preserves the invariant. -/
theorem inv_step {n : Nat} {cap : Recurso → Int} {s t : St n}
    (hs : Inv n cap s) (hstep : Step n s t) : Inv n cap t := by
  obtain ⟨hcons, hpool, hres, hflag⟩ := hs
  cases hstep with
  | reserve i c hc0 hsuf hres0 hflag0 =>
    refine ⟨?_, ?_, ?_, ?_⟩
    · intro x
      show (s.pool x - c x) + ∑ j, Function.update s.res i c j x = cap x
      rw [sum_update_comp]
      have h1 := hcons x
      have h2 := hres0 x
      linarith
    · intro x
      show 0 ≤ s.pool x - c x
      have := hsuf x
      linarith
    · intro j x
      show 0 ≤ Function.update s.res i c j x
      by_cases hj : j = i
      · subst hj; simp only [Function.update_same]; exact hc0 x
      · rw [Function.update_noteq hj]; exact hres j x
    · intro j x
      refine ⟨(hflag j x).1, ?_⟩
      show s.flag j x ≤ Function.update s.res i c j x
      by_cases hj : j = i
      · subst hj
        simp only [Function.update_same]
        rw [hflag0 x]
        exact hc0 x
      · rw [Function.update_noteq hj]; exact (hflag j x).2
  | acquire i x hres1 hflag0 =>
    refine ⟨hcons, hpool, hres, ?_⟩
    intro j y
    show 0 ≤ Function.update s.flag i (Function.update (s.flag i) x 1) j y ∧
      Function.update s.flag i (Function.update (s.flag i) x 1) j y ≤
        s.res j y
    by_cases hj : j = i
    · subst hj
      simp only [Function.update_same]
      by_cases hy : y = x
      · subst hy
        simp only [Function.update_same]
        exact ⟨by omega, hres1⟩
      · rw [Function.update_noteq hy]
        exact hflag j y
    · rw [Function.update_noteq hj]
      exact hflag j y
  | relPhys i x hflag1 =>
    refine ⟨hcons, hpool, hres, ?_⟩
    intro j y
    show 0 ≤ Function.update s.flag i (Function.update (s.flag i) x 0) j y ∧
      Function.update s.flag i (Function.update (s.flag i) x 0) j y ≤
        s.res j y
    by_cases hj : j = i
    · subst hj
      simp only [Function.update_same]
      by_cases hy : y = x
      · subst hy
        simp only [Function.update_same]
        exact ⟨le_refl 0, hres j y⟩
      · rw [Function.update_noteq hy]
        exact hflag j y
    · rw [Function.update_noteq hj]
      exact hflag j y
  | credit i c hc0 hcr hfl =>
    refine ⟨?_, ?_, ?_, ?_⟩
    · intro x
      show (s.pool x + c x) +
        ∑ j, Function.update s.res i (fun y => s.res i y - c y) j x = cap x
      rw [sum_update_comp]
      have h1 := hcons x
      linarith
    · intro x
      show 0 ≤ s.pool x + c x
      have h1 := hpool x
      have h2 := hc0 x
      linarith
    · intro j x
      show 0 ≤ Function.update s.res i (fun y => s.res i y - c y) j x
      by_cases hj : j = i
      · subst hj
        simp only [Function.update_same]
        have := hcr x
        linarith
      · rw [Function.update_noteq hj]; exact hres j x
    · intro j x
      refine ⟨(hflag j x).1, ?_⟩
      show s.flag j x ≤ Function.update s.res i (fun y => s.res i y - c y) j x
      by_cases hj : j = i
      · subst hj
        simp only [Function.update_same]
        rcases le_or_lt (c x) 0 with hc | hc
        · have h1 := hc0 x
          have h2 := (hflag j x).2
          linarith
        · have h1 := hfl x (by omega)
          have h2 := hcr x
          rw [h1]
          linarith
      · rw [Function.update_noteq hj]; exact (hflag j x).2

/-- The ledger invariant holds in every reachable state. -/
theorem inv_reachable {n : Nat} {cap : Recurso → Int} {s : St n}
    (h : Reachable n cap s) (hcap : ∀ x, 0 ≤ cap x) : Inv n cap s := by
  induction h with
  | init => exact inv_init n cap hcap
  | step _ hstep ih => exact inv_step ih hstep

end Ledger

/-- C3 counterexample: the claimed equation counter + held-flags sum =
capacity fails at a reachable state.  After a single granted pouso
reservation (1 pista + 1 torre debited, no physical acquisition yet) the
pista counter is 2 while all flags are 0, so it does not add up to the
capacity 3 — exactly the state So-final.c is in between reservar_recursos
returning SEM_OK and the first sem_wait. -/
theorem c3_conservacao_counterexample :
    ∃ s : Ledger.St 1, Ledger.Reachable 1 Ledger.cap3 s ∧
      ¬(∀ x, s.pool x + ∑ i, s.flag i x = Ledger.cap3 x) := by
  refine ⟨_, Ledger.Reachable.step Ledger.Reachable.init
    (Ledger.Step.reserve (Ledger.init 1 Ledger.cap3) ⟨0, by omega⟩
      Ledger.needPouso ?_ ?_ ?_ ?_), ?_⟩
  · intro x; cases x <;> simp [Ledger.needPouso]
  · intro x; cases x <;> simp [Ledger.needPouso, Ledger.init, Ledger.cap3]
  · intro x; simp [Ledger.init]
  · intro x; simp [Ledger.init]
  · intro hall
    have hx := hall SoFinal.Recurso.pista
    simp [Ledger.init, Ledger.cap3, Ledger.needPouso] at hx

/-- C3 amended: in every reachable interleaving state each counter stays
within 0 and the capacity, the counter plus the outstanding reservation
debits equals the capacity exactly, and the counter plus the held-flag sum
is at most the capacity (with equality only once every outstanding debit
has turned into a held flag, which is false between a grant and the
physical acquisitions). -/
theorem c3_conservacao_amended (n : Nat) (cap : SoFinal.Recurso → Int)
    (s : Ledger.St n) (h : Ledger.Reachable n cap s)
    (hcap : ∀ x, 0 ≤ cap x) :
    (∀ x, 0 ≤ s.pool x ∧ s.pool x ≤ cap x) ∧
    (∀ x, s.pool x + ∑ i, s.res i x = cap x) ∧
    (∀ x, s.pool x + ∑ i, s.flag i x ≤ cap x) := by
  obtain ⟨hcons, hpool, hres, hflag⟩ := Ledger.inv_reachable h hcap
  refine ⟨?_, hcons, ?_⟩
  · intro x
    refine ⟨hpool x, ?_⟩
    have h1 := hcons x
    have h2 : 0 ≤ ∑ i, s.res i x :=
      Finset.sum_nonneg fun i _ => hres i x
    linarith
  · intro x
    have h1 := hcons x
    have h2 : ∑ i, s.flag i x ≤ ∑ i, s.res i x :=
      Finset.sum_le_sum fun i _ => (hflag i x).2
    linarith

/-- C3 amended witness: the bounds instantiated at the initial state with
the default capacities and one aircraft. -/
theorem c3_conservacao_amended_witness :
    (∀ x, 0 ≤ (Ledger.init 1 Ledger.cap3).pool x ∧
      (Ledger.init 1 Ledger.cap3).pool x ≤ Ledger.cap3 x) ∧
    (∀ x, (Ledger.init 1 Ledger.cap3).pool x +
      ∑ i, (Ledger.init 1 Ledger.cap3).res i x = Ledger.cap3 x) ∧
    (∀ x, (Ledger.init 1 Ledger.cap3).pool x +
      ∑ i, (Ledger.init 1 Ledger.cap3).flag i x ≤ Ledger.cap3 x) :=
  c3_conservacao_amended 1 Ledger.cap3 (Ledger.init 1 Ledger.cap3)
    Ledger.Reachable.init (by intro x; cases x <;> decide)
namespace SoFinal

/-- When the entry checkpoint is quiet (status not reported failed, waits
short enough that verificar_starvation does not fire) and the priority
wait exits normally, prologo continues into the phase body having only
recorded the wait start and incremented the contention count of the
class. -/
theorem prologo_ok (a : Aviao) (s : Sys) (env : FaseEnv)
    (hst : eh_falha a.status_final = false)
    (hw1 : env.t1 - a.ultimo_tempo_espera < 60)
    (hw2 : env.t2 - env.tq < 60)
    (hsf : env.saidaFalha = false) :
    prologo a s env = Sum.inr ({ a with ultimo_tempo_espera := env.tq },
      if a.tipo = .INTERNACIONAL then
        { s with esperando_internacional := s.esperando_internacional + 1 }
      else
        { s with esperando_domestico := s.esperando_domestico + 1 }) := by
  obtain ⟨t1, tq, sf, t2, tini, rr, okT, okG, okP, tfim⟩ := env
  simp only at hw1 hw2 hsf
  subst hsf
  obtain ⟨i, tp, st, al, ult, hpv, hgv, htv, ip, fp, idb, fdb, idc, fdc⟩ := a
  simp only at hst hw1
  cases tp <;>
    simp [prologo, checa_noop, hw1, hw2, hst, aguardar_prioridade]

/-- Timeout leaf of the pouso body (So-final.c lines 315-323): the status
is set to FALHA, the priority registration is released, and -1 is
returned with no resource action. -/
theorem pouso_core_timeout (a3 : Aviao) (s3 : Sys) (env : FaseEnv)
    (hrr : env.rr = .timeout) :
    pouso_core a3 s3 env = ⟨-1,
      { a3 with inicio_pouso := env.tini, status_final := .FALHA },
      liberar_prioridade a3.tipo s3, []⟩ := by
  obtain ⟨i, tp, st, al, ult, hpv, hgv, htv, ip, fp, idb, fdb, idc, fdc⟩ := a3
  obtain ⟨t1, tq, sf, t2, tini, rr, okT, okG, okP, tfim⟩ := env
  simp only at hrr
  subst hrr
  rfl

/-- Torre-failure leaf of the pouso body (So-final.c line 327): nothing
was acquired, the full debited need is credited back, priority is
released. -/
theorem pouso_core_falha_torre (a3 : Aviao) (s3 : Sys) (env : FaseEnv)
    (hp : a3.has_pista = false) (ht : a3.has_torre = false)
    (hrr : env.rr = .ok) (hT : env.okTorre = false) :
    pouso_core a3 s3 env = ⟨-1,
      { a3 with inicio_pouso := env.tini },
      liberar_prioridade a3.tipo
        { s3 with pool := (s3.pool.debita 1 0 1).credita 1 0 1 },
      [Ev.reserva 1 0 1, Ev.credita 1 0 1]⟩ := by
  obtain ⟨i, tp, st, al, ult, hpv, hgv, htv, ip, fp, idb, fdb, idc, fdc⟩ := a3
  obtain ⟨t1, tq, sf, t2, tini, rr, okT, okG, okP, tfim⟩ := env
  simp only at hp ht hrr hT
  subst hp ht hrr hT
  rfl

/-- Pista-failure leaf of the pouso body (So-final.c lines 330-337): the
torre acquired in the step is posted back and its flag cleared, the full
debited need is credited back, priority is released. -/
theorem pouso_core_falha_pista (a3 : Aviao) (s3 : Sys) (env : FaseEnv)
    (hp : a3.has_pista = false) (ht : a3.has_torre = false)
    (hrr : env.rr = .ok) (hT : env.okTorre = true) (hP : env.okPista = false) :
    pouso_core a3 s3 env = ⟨-1,
      { a3 with inicio_pouso := env.tini, has_torre := false },
      liberar_prioridade a3.tipo
        { s3 with
          pool := (s3.pool.debita 1 0 1).credita 1 0 1,
          sem_torres := s3.sem_torres - 1 + 1 },
      [Ev.reserva 1 0 1, Ev.semAcq .torre, Ev.semRel .torre,
        Ev.credita 1 0 1]⟩ := by
  obtain ⟨i, tp, st, al, ult, hpv, hgv, htv, ip, fp, idb, fdb, idc, fdc⟩ := a3
  obtain ⟨t1, tq, sf, t2, tini, rr, okT, okG, okP, tfim⟩ := env
  simp only at hp ht hrr hT hP
  subst hp ht hrr hT hP
  rfl

/-- Success leaf of the pouso body (So-final.c lines 326-360): torre and
pista are acquired in order, the phase body runs, everything is released
and the full need credited back, the critical-alert flag is cleared and an
ALERTA_CRITICO status resolves to SUCESSO. -/
theorem pouso_core_sucesso (a3 : Aviao) (s3 : Sys) (env : FaseEnv)
    (hp : a3.has_pista = false) (ht : a3.has_torre = false)
    (hrr : env.rr = .ok) (hT : env.okTorre = true) (hP : env.okPista = true) :
    pouso_core a3 s3 env = ⟨0,
      { a3 with
        inicio_pouso := env.tini,
        has_pista := false,
        has_torre := false,
        fim_pouso := env.tfim,
        ultimo_tempo_espera := env.tfim,
        em_alerta_critico := false,
        status_final :=
          if a3.status_final = .ALERTA_CRITICO then .SUCESSO
          else a3.status_final },
      liberar_prioridade a3.tipo
        { s3 with
          pool := (s3.pool.debita 1 0 1).credita 1 0 1,
          sem_pistas := s3.sem_pistas - 1 + 1,
          sem_torres := s3.sem_torres - 1 + 1 },
      [Ev.reserva 1 0 1, Ev.semAcq .torre, Ev.semAcq .pista,
        Ev.semRel .pista, Ev.semRel .torre, Ev.credita 1 0 1]⟩ := by
  obtain ⟨i, tp, st, al, ult, hpv, hgv, htv, ip, fp, idb, fdb, idc, fdc⟩ := a3
  obtain ⟨t1, tq, sf, t2, tini, rr, okT, okG, okP, tfim⟩ := env
  simp only at hp ht hrr hT hP
  subst hp ht hrr hT hP
  rfl

end SoFinal
namespace SoFinal

/-- Timeout leaf of the desembarque body (So-final.c lines 378-386). -/
theorem desembarque_core_timeout (a3 : Aviao) (s3 : Sys) (env : FaseEnv)
    (hrr : env.rr = .timeout) :
    desembarque_core a3 s3 env = ⟨-1,
      { a3 with inicio_desembarque := env.tini, status_final := .FALHA },
      liberar_prioridade a3.tipo s3, []⟩ := by
  obtain ⟨i, tp, st, al, ult, hpv, hgv, htv, ip, fp, idb, fdb, idc, fdc⟩ := a3
  obtain ⟨t1, tq, sf, t2, tini, rr, okT, okG, okP, tfim⟩ := env
  simp only at hrr
  subst hrr
  rfl

/-- Portao-failure leaf of the desembarque body (So-final.c lines
393-399): the torre acquired in the step is posted back and its flag
cleared, the full debited need is credited back, priority is released. -/
theorem desembarque_core_falha_portao (a3 : Aviao) (s3 : Sys) (env : FaseEnv)
    (hg : a3.has_portao = false) (ht : a3.has_torre = false)
    (hrr : env.rr = .ok) (hT : env.okTorre = true)
    (hG : env.okPortao = false) :
    desembarque_core a3 s3 env = ⟨-1,
      { a3 with inicio_desembarque := env.tini, has_torre := false },
      liberar_prioridade a3.tipo
        { s3 with
          pool := (s3.pool.debita 0 1 1).credita 0 1 1,
          sem_torres := s3.sem_torres - 1 + 1 },
      [Ev.reserva 0 1 1, Ev.semAcq .torre, Ev.semRel .torre,
        Ev.credita 0 1 1]⟩ := by
  obtain ⟨i, tp, st, al, ult, hpv, hgv, htv, ip, fp, idb, fdb, idc, fdc⟩ := a3
  obtain ⟨t1, tq, sf, t2, tini, rr, okT, okG, okP, tfim⟩ := env
  simp only at hg ht hrr hT hG
  subst hg ht hrr hT hG
  rfl

/-- Success leaf of the desembarque body (So-final.c lines 389-424): torre
then portao acquired, the phase body runs, the torre is released and its
reservation part credited immediately, then after the extra occupancy the
portao is released and its part credited. -/
theorem desembarque_core_sucesso (a3 : Aviao) (s3 : Sys) (env : FaseEnv)
    (hg : a3.has_portao = false) (ht : a3.has_torre = false)
    (hrr : env.rr = .ok) (hT : env.okTorre = true) (hG : env.okPortao = true) :
    desembarque_core a3 s3 env = ⟨0,
      { a3 with
        inicio_desembarque := env.tini,
        has_portao := false,
        has_torre := false,
        fim_desembarque := env.tfim,
        ultimo_tempo_espera := env.tfim,
        em_alerta_critico := false,
        status_final :=
          if a3.status_final = .ALERTA_CRITICO then .SUCESSO
          else a3.status_final },
      liberar_prioridade a3.tipo
        { s3 with
          pool := ((s3.pool.debita 0 1 1).credita 0 0 1).credita 0 1 0,
          sem_portoes := s3.sem_portoes - 1 + 1,
          sem_torres := s3.sem_torres - 1 + 1 },
      [Ev.reserva 0 1 1, Ev.semAcq .torre, Ev.semAcq .portao,
        Ev.semRel .torre, Ev.credita 0 0 1, Ev.semRel .portao,
        Ev.credita 0 1 0]⟩ := by
  obtain ⟨i, tp, st, al, ult, hpv, hgv, htv, ip, fp, idb, fdb, idc, fdc⟩ := a3
  obtain ⟨t1, tq, sf, t2, tini, rr, okT, okG, okP, tfim⟩ := env
  simp only at hg ht hrr hT hG
  subst hg ht hrr hT hG
  rfl

/-- Timeout leaf of the decolagem body (So-final.c lines 442-450). -/
theorem decolagem_core_timeout (a3 : Aviao) (s3 : Sys) (env : FaseEnv)
    (hrr : env.rr = .timeout) :
    decolagem_core a3 s3 env = ⟨-1,
      { a3 with inicio_decolagem := env.tini, status_final := .FALHA },
      liberar_prioridade a3.tipo s3, []⟩ := by
  obtain ⟨i, tp, st, al, ult, hpv, hgv, htv, ip, fp, idb, fdb, idc, fdc⟩ := a3
  obtain ⟨t1, tq, sf, t2, tini, rr, okT, okG, okP, tfim⟩ := env
  simp only at hrr
  subst hrr
  rfl

/-- Portao-failure leaf of the decolagem body (So-final.c lines 457-463):
the torre acquired in the step is posted back, the full debited need is
credited back, priority is released. -/
theorem decolagem_core_falha_portao (a3 : Aviao) (s3 : Sys) (env : FaseEnv)
    (hp : a3.has_pista = false) (hg : a3.has_portao = false)
    (ht : a3.has_torre = false)
    (hrr : env.rr = .ok) (hT : env.okTorre = true)
    (hG : env.okPortao = false) :
    decolagem_core a3 s3 env = ⟨-1,
      { a3 with inicio_decolagem := env.tini, has_torre := false },
      liberar_prioridade a3.tipo
        { s3 with
          pool := (s3.pool.debita 1 1 1).credita 1 1 1,
          sem_torres := s3.sem_torres - 1 + 1 },
      [Ev.reserva 1 1 1, Ev.semAcq .torre, Ev.semRel .torre,
        Ev.credita 1 1 1]⟩ := by
  obtain ⟨i, tp, st, al, ult, hpv, hgv, htv, ip, fp, idb, fdb, idc, fdc⟩ := a3
  obtain ⟨t1, tq, sf, t2, tini, rr, okT, okG, okP, tfim⟩ := env
  simp only at hp hg ht hrr hT hG
  subst hp hg ht hrr hT hG
  rfl

/-- Pista-failure leaf of the decolagem body (So-final.c lines 466-473):
the portao and torre acquired in the step are posted back in that order
with their flags cleared, the full debited need is credited back, priority
is released. -/
theorem decolagem_core_falha_pista (a3 : Aviao) (s3 : Sys) (env : FaseEnv)
    (hp : a3.has_pista = false) (hg : a3.has_portao = false)
    (ht : a3.has_torre = false)
    (hrr : env.rr = .ok) (hT : env.okTorre = true)
    (hG : env.okPortao = true) (hP : env.okPista = false) :
    decolagem_core a3 s3 env = ⟨-1,
      { a3 with
        inicio_decolagem := env.tini,
        has_portao := false,
        has_torre := false },
      liberar_prioridade a3.tipo
        { s3 with
          pool := (s3.pool.debita 1 1 1).credita 1 1 1,
          sem_portoes := s3.sem_portoes - 1 + 1,
          sem_torres := s3.sem_torres - 1 + 1 },
      [Ev.reserva 1 1 1, Ev.semAcq .torre, Ev.semAcq .portao,
        Ev.semRel .portao, Ev.semRel .torre, Ev.credita 1 1 1]⟩ := by
  obtain ⟨i, tp, st, al, ult, hpv, hgv, htv, ip, fp, idb, fdb, idc, fdc⟩ := a3
  obtain ⟨t1, tq, sf, t2, tini, rr, okT, okG, okP, tfim⟩ := env
  simp only at hp hg ht hrr hT hG hP
  subst hp hg ht hrr hT hG hP
  rfl

/-- Success leaf of the decolagem body (So-final.c lines 453-497): torre,
portao, pista acquired in order, the phase body runs, everything is
released in the order torre, portao, pista and the full need credited
back. -/
theorem decolagem_core_sucesso (a3 : Aviao) (s3 : Sys) (env : FaseEnv)
    (hp : a3.has_pista = false) (hg : a3.has_portao = false)
    (ht : a3.has_torre = false)
    (hrr : env.rr = .ok) (hT : env.okTorre = true)
    (hG : env.okPortao = true) (hP : env.okPista = true) :
    decolagem_core a3 s3 env = ⟨0,
      { a3 with
        inicio_decolagem := env.tini,
        has_pista := false,
        has_portao := false,
        has_torre := false,
        fim_decolagem := env.tfim,
        ultimo_tempo_espera := env.tfim,
        em_alerta_critico := false,
        status_final :=
          if a3.status_final = .ALERTA_CRITICO then .SUCESSO
          else a3.status_final },
      liberar_prioridade a3.tipo
        { s3 with
          pool := (s3.pool.debita 1 1 1).credita 1 1 1,
          sem_pistas := s3.sem_pistas - 1 + 1,
          sem_portoes := s3.sem_portoes - 1 + 1,
          sem_torres := s3.sem_torres - 1 + 1 },
      [Ev.reserva 1 1 1, Ev.semAcq .torre, Ev.semAcq .portao,
        Ev.semAcq .pista, Ev.semRel .torre, Ev.semRel .portao,
        Ev.semRel .pista, Ev.credita 1 1 1]⟩ := by
  obtain ⟨i, tp, st, al, ult, hpv, hgv, htv, ip, fp, idb, fdb, idc, fdc⟩ := a3
  obtain ⟨t1, tq, sf, t2, tini, rr, okT, okG, okP, tfim⟩ := env
  simp only at hp hg ht hrr hT hG hP
  subst hp hg ht hrr hT hG hP
  rfl

end SoFinal
namespace SoFinal

/-- Crediting back exactly what was debited restores the pool. -/
theorem pool_debita_credita (p : Pool) (np ng nt : Int) :
    (p.debita np ng nt).credita np ng nt = p := by
  cases p
  simp only [Pool.debita, Pool.credita, Pool.mk.injEq]
  omega

/-- The split desembarque credit (torre part then portao part) also
restores the pool. -/
theorem pool_debita_credita_split (p : Pool) (ng nt : Int) :
    ((p.debita 0 ng nt).credita 0 0 nt).credita 0 ng 0 = p := by
  cases p
  simp only [Pool.debita, Pool.credita, Pool.mk.injEq]
  omega

/-- After a phase that enters through aguardar_prioridade (contention
count incremented) and leaves through liberar_prioridade (guarded
decrement), the shared state is fully restored whenever its other fields
were restored by the phase body. -/
theorem sys_restaurada (tipo : TipoVoo) (s s' : Sys)
    (hpool : s'.pool = s.pool)
    (hsp : s'.sem_pistas = s.sem_pistas)
    (hsg : s'.sem_portoes = s.sem_portoes)
    (hst2 : s'.sem_torres = s.sem_torres)
    (hei2 : s'.esperando_internacional =
      (if tipo = .INTERNACIONAL then s.esperando_internacional + 1
       else s.esperando_internacional))
    (hed2 : s'.esperando_domestico =
      (if tipo = .DOMESTICO then s.esperando_domestico + 1
       else s.esperando_domestico))
    (hac : s'.acidentes = s.acidentes)
    (hdl : s'.deadlocks = s.deadlocks)
    (hei : 0 ≤ s.esperando_internacional)
    (hed : 0 ≤ s.esperando_domestico) :
    liberar_prioridade tipo s' = s := by
  obtain ⟨pl, sp0, sg0, st0, ei, ed, ac, dl⟩ := s
  obtain ⟨pl2, sp2, sg2, st2, ei2, ed2, ac2, dl2⟩ := s'
  simp only at hpool hsp hsg hst2 hei2 hed2 hac hdl hei hed
  subst hpool hsp hsg hst2 hac hdl
  cases tipo <;> simp at hei2 hed2 <;>
    simp [liberar_prioridade, hei2, hed2,
      show (0:Int) < ei + 1 by omega, show (0:Int) < ed + 1 by omega]

end SoFinal
namespace SoRestrito

open SoFinal (Recurso)

/-- Appending distributes over the occurrence count. -/
theorem contagem_append (x : Recurso) (l1 l2 : List Recurso) :
    contagem x (l1 ++ l2) = contagem x l1 + contagem x l2 := by
  induction l1 with
  | nil => simp [contagem]
  | cons r t ih =>
    simp only [List.cons_append, contagem]
    rw [show List.append t l2 = t ++ l2 from rfl, ih]
    ring

/-- postAll adds one unit per occurrence of a resource in the rollback
list. -/
theorem postAll_count (l : List Recurso) (sem : Recurso → Int) :
    postAll l sem = fun x => sem x + contagem x l := by
  induction l generalizing sem with
  | nil => funext x; simp [postAll, contagem]
  | cons r resto ih =>
    funext x
    rw [postAll, ih]
    by_cases hx : r = x
    · subst hx
      simp only [Function.update_same, contagem]
      simp only [if_true]
      ring
    · have hx2 : x ≠ r := fun h => hx h.symm
      simp only [Function.update_noteq hx2, contagem]
      rw [if_neg hx]
      ring

/-- A pass of the adquirir_fase acquisition loop that ends in the
per-resource-timeout rollback posts back exactly the semaphore units it
decremented on top of the accumulator and holds nothing. -/
theorem passo_fail_geral (ox : Recurso → ResPoll) :
    ∀ (l acc : List Recurso) (sem : Recurso → Int),
      (passo_aquisicao ox l acc sem).2.2 = .retry →
      (passo_aquisicao ox l acc sem).1 = (fun x => sem x + contagem x acc) ∧
      (passo_aquisicao ox l acc sem).2.1 = [] := by
  intro l
  induction l with
  | nil => intro acc sem h; simp [passo_aquisicao] at h
  | cons r resto ih =>
    intro acc sem h
    cases hox : ox r with
    | ok =>
      simp only [passo_aquisicao, hox] at h ⊢
      obtain ⟨h1, h2⟩ := ih (acc ++ [r]) (Function.update sem r (sem r - 1)) h
      refine ⟨?_, h2⟩
      rw [h1]
      funext x
      rw [contagem_append]
      by_cases hx : r = x
      · subst hx
        simp only [Function.update_same, contagem]
        simp only [if_true]
        ring
      · have hx2 : x ≠ r := fun hxx => hx hxx.symm
        simp only [Function.update_noteq hx2, contagem]
        rw [if_neg hx]
        ring
    | timeout =>
      simp only [passo_aquisicao, hox]
      exact ⟨postAll_count acc sem, trivial⟩
    | falha =>
      simp only [passo_aquisicao, hox] at h
      exact absurd h (by decide)

/-- A timeout-rolled-back pass of the acquisition loop started with an
empty accumulator restores the semaphores exactly and holds nothing. -/
theorem passo_fail (ox : Recurso → ResPoll) (l : List Recurso)
    (sem : Recurso → Int)
    (h : (passo_aquisicao ox l [] sem).2.2 = .retry) :
    (passo_aquisicao ox l [] sem).1 = sem ∧
    (passo_aquisicao ox l [] sem).2.1 = [] := by
  obtain ⟨h1, h2⟩ := passo_fail_geral ox l [] sem h
  refine ⟨?_, h2⟩
  rw [h1]
  funext x
  simp [contagem]

/-- A pass of the acquisition loop that ends because a->falhou fired
mid-pass (line 140 of So_restrito.c) returns still holding everything it
acquired in the pass, each such unit still debited from its semaphore:
the rollback block at lines 141-146 is skipped and line 150 returns -1
without any sem_post. -/
theorem passo_falha_leak (ox : Recurso → ResPoll) :
    ∀ (l acc : List Recurso) (sem : Recurso → Int),
      (passo_aquisicao ox l acc sem).2.2 = .falha →
      ∃ novos, (passo_aquisicao ox l acc sem).2.1 = acc ++ novos ∧
        (passo_aquisicao ox l acc sem).1 =
          fun x => sem x - contagem x novos := by
  intro l
  induction l with
  | nil => intro acc sem h; simp [passo_aquisicao] at h
  | cons r resto ih =>
    intro acc sem h
    cases hox : ox r with
    | ok =>
      simp only [passo_aquisicao, hox] at h ⊢
      obtain ⟨novos, h1, h2⟩ :=
        ih (acc ++ [r]) (Function.update sem r (sem r - 1)) h
      refine ⟨r :: novos, ?_, ?_⟩
      · rw [h1]
        simp
      · rw [h2]
        funext x
        by_cases hx : r = x
        · subst hx
          simp only [Function.update_same, contagem]
          simp only [if_true]
          ring
        · have hx2 : x ≠ r := fun hxx => hx hxx.symm
          simp only [Function.update_noteq hx2, contagem]
          rw [if_neg hx]
          ring
    | timeout =>
      simp only [passo_aquisicao, hox] at h
      exact absurd h (by decide)
    | falha =>
      simp only [passo_aquisicao, hox]
      refine ⟨[], by simp, ?_⟩
      funext x
      simp [contagem]

end SoRestrito
/-- C4 counterexample: the original claim — every phase in which a
physical acquisition fails after a successful reservation rolls back
completely, leaving the aircraft holding no proper non-empty subset —
fails in So_restrito.c.  When checa_starvation sets a->falhou while the
pass is polling its second resource, line 140 breaks out of the for-loop
before the rollback block and line 150 returns -1: a Domestic decolagem
pass (order torre, portao, pista) that acquired the torre and then fails
on the portao exits with the torre still held and its semaphore still
debited (2 becomes 1, never posted back). -/
theorem c4_rollback_counterexample :
    (SoRestrito.passo_aquisicao
      (fun r => if r = .torre then SoRestrito.ResPoll.ok
        else SoRestrito.ResPoll.falha)
      (SoRestrito.ordem .DOMESTICO 2) [] (fun _ => 2)).2.2 =
      SoRestrito.ResPasso.falha ∧
    (SoRestrito.passo_aquisicao
      (fun r => if r = .torre then SoRestrito.ResPoll.ok
        else SoRestrito.ResPoll.falha)
      (SoRestrito.ordem .DOMESTICO 2) [] (fun _ => 2)).2.1 = [.torre] ∧
    (SoRestrito.passo_aquisicao
      (fun r => if r = .torre then SoRestrito.ResPoll.ok
        else SoRestrito.ResPoll.falha)
      (SoRestrito.ordem .DOMESTICO 2) [] (fun _ => 2)).1 .torre = 1 := by
  decide

/-- C4 amended.  In So-final.c a failed physical acquisition after a
successful reservation rolls back completely before the failure return:
for pouso failing at the pista, desembarque failing at the portao, and
decolagem failing at the portao or at the pista, every physical unit
acquired in the step is posted back (trace shows matching semAcq and
semRel events), the reservation gate is credited back exactly the debited
remaining need (the shared state is fully restored, including the
priority-arbiter counts), and the aircraft exits the phase holding no
progress flag.  In So_restrito.c only the per-resource-timeout exit of an
adquirir_fase pass rolls back (restoring the semaphores exactly and
holding nothing); the a->falhou exit skips the rollback block and returns
-1 still holding every semaphore acquired in the pass, each unit still
debited. -/
theorem c4_rollback_amended (a : SoFinal.Aviao) (s : SoFinal.Sys)
    (env : SoFinal.FaseEnv)
    (hp : a.has_pista = false) (hg : a.has_portao = false)
    (ht : a.has_torre = false)
    (hst : SoFinal.eh_falha a.status_final = false)
    (hw1 : env.t1 - a.ultimo_tempo_espera < 60)
    (hw2 : env.t2 - env.tq < 60)
    (hsf : env.saidaFalha = false)
    (hrr : env.rr = .ok)
    (hei : 0 ≤ s.esperando_internacional)
    (hed : 0 ≤ s.esperando_domestico) :
    (env.okTorre = true → env.okPista = false →
      (SoFinal.pouso a s env).ret = -1 ∧
      (SoFinal.pouso a s env).s = s ∧
      (SoFinal.pouso a s env).a.has_pista = false ∧
      (SoFinal.pouso a s env).a.has_portao = false ∧
      (SoFinal.pouso a s env).a.has_torre = false ∧
      (SoFinal.pouso a s env).tr = [SoFinal.Ev.reserva 1 0 1,
        SoFinal.Ev.semAcq .torre, SoFinal.Ev.semRel .torre,
        SoFinal.Ev.credita 1 0 1]) ∧
    (env.okTorre = true → env.okPortao = false →
      (SoFinal.desembarque a s env).ret = -1 ∧
      (SoFinal.desembarque a s env).s = s ∧
      (SoFinal.desembarque a s env).a.has_pista = false ∧
      (SoFinal.desembarque a s env).a.has_portao = false ∧
      (SoFinal.desembarque a s env).a.has_torre = false ∧
      (SoFinal.desembarque a s env).tr = [SoFinal.Ev.reserva 0 1 1,
        SoFinal.Ev.semAcq .torre, SoFinal.Ev.semRel .torre,
        SoFinal.Ev.credita 0 1 1]) ∧
    (env.okTorre = true → env.okPortao = false →
      (SoFinal.decolagem a s env).ret = -1 ∧
      (SoFinal.decolagem a s env).s = s ∧
      (SoFinal.decolagem a s env).a.has_pista = false ∧
      (SoFinal.decolagem a s env).a.has_portao = false ∧
      (SoFinal.decolagem a s env).a.has_torre = false ∧
      (SoFinal.decolagem a s env).tr = [SoFinal.Ev.reserva 1 1 1,
        SoFinal.Ev.semAcq .torre, SoFinal.Ev.semRel .torre,
        SoFinal.Ev.credita 1 1 1]) ∧
    (env.okTorre = true → env.okPortao = true → env.okPista = false →
      (SoFinal.decolagem a s env).ret = -1 ∧
      (SoFinal.decolagem a s env).s = s ∧
      (SoFinal.decolagem a s env).a.has_pista = false ∧
      (SoFinal.decolagem a s env).a.has_portao = false ∧
      (SoFinal.decolagem a s env).a.has_torre = false ∧
      (SoFinal.decolagem a s env).tr = [SoFinal.Ev.reserva 1 1 1,
        SoFinal.Ev.semAcq .torre, SoFinal.Ev.semAcq .portao,
        SoFinal.Ev.semRel .portao, SoFinal.Ev.semRel .torre,
        SoFinal.Ev.credita 1 1 1]) ∧
    (∀ (ox : SoFinal.Recurso → SoRestrito.ResPoll)
      (l : List SoFinal.Recurso) (sem : SoFinal.Recurso → Int),
      (SoRestrito.passo_aquisicao ox l [] sem).2.2 = .retry →
      (SoRestrito.passo_aquisicao ox l [] sem).1 = sem ∧
      (SoRestrito.passo_aquisicao ox l [] sem).2.1 = []) ∧
    (∀ (ox : SoFinal.Recurso → SoRestrito.ResPoll)
      (l acc : List SoFinal.Recurso) (sem : SoFinal.Recurso → Int),
      (SoRestrito.passo_aquisicao ox l acc sem).2.2 = .falha →
      ∃ novos,
        (SoRestrito.passo_aquisicao ox l acc sem).2.1 = acc ++ novos ∧
        (SoRestrito.passo_aquisicao ox l acc sem).1 =
          fun x => sem x - SoRestrito.contagem x novos) := by
  have hpro := SoFinal.prologo_ok a s env hst hw1 hw2 hsf
  refine ⟨?_, ?_, ?_, ?_,
    fun ox l sem h => SoRestrito.passo_fail ox l sem h,
    fun ox l acc sem h => SoRestrito.passo_falha_leak ox l acc sem h⟩
  · intro hT hP
    have hcore := SoFinal.pouso_core_falha_pista
      { a with ultimo_tempo_espera := env.tq }
      (if a.tipo = .INTERNACIONAL then
        { s with esperando_internacional := s.esperando_internacional + 1 }
      else { s with esperando_domestico := s.esperando_domestico + 1 })
      env (by simpa using hp) (by simpa using ht) hrr hT hP
    simp only [SoFinal.pouso, hpro]
    rw [hcore]
    refine ⟨rfl, ?_, by simpa using hp, by simpa using hg, rfl, rfl⟩
    refine SoFinal.sys_restaurada a.tipo s _
      (by split <;> simp [SoFinal.pool_debita_credita])
      (by split <;> rfl) (by split <;> rfl)
      (by split <;> (dsimp only; omega))
      (by cases htipo : a.tipo <;> simp [htipo])
      (by cases htipo : a.tipo <;> simp [htipo])
      (by split <;> rfl) (by split <;> rfl) hei hed
  · intro hT hG
    have hcore := SoFinal.desembarque_core_falha_portao
      { a with ultimo_tempo_espera := env.tq }
      (if a.tipo = .INTERNACIONAL then
        { s with esperando_internacional := s.esperando_internacional + 1 }
      else { s with esperando_domestico := s.esperando_domestico + 1 })
      env (by simpa using hg) (by simpa using ht) hrr hT hG
    simp only [SoFinal.desembarque, hpro]
    rw [hcore]
    refine ⟨rfl, ?_, by simpa using hp, by simpa using hg, rfl, rfl⟩
    refine SoFinal.sys_restaurada a.tipo s _
      (by split <;> simp [SoFinal.pool_debita_credita])
      (by split <;> rfl) (by split <;> rfl)
      (by split <;> (dsimp only; omega))
      (by cases htipo : a.tipo <;> simp [htipo])
      (by cases htipo : a.tipo <;> simp [htipo])
      (by split <;> rfl) (by split <;> rfl) hei hed
  · intro hT hG
    have hcore := SoFinal.decolagem_core_falha_portao
      { a with ultimo_tempo_espera := env.tq }
      (if a.tipo = .INTERNACIONAL then
        { s with esperando_internacional := s.esperando_internacional + 1 }
      else { s with esperando_domestico := s.esperando_domestico + 1 })
      env (by simpa using hp) (by simpa using hg) (by simpa using ht)
      hrr hT hG
    simp only [SoFinal.decolagem, hpro]
    rw [hcore]
    refine ⟨rfl, ?_, by simpa using hp, by simpa using hg, rfl, rfl⟩
    refine SoFinal.sys_restaurada a.tipo s _
      (by split <;> simp [SoFinal.pool_debita_credita])
      (by split <;> rfl) (by split <;> rfl)
      (by split <;> (dsimp only; omega))
      (by cases htipo : a.tipo <;> simp [htipo])
      (by cases htipo : a.tipo <;> simp [htipo])
      (by split <;> rfl) (by split <;> rfl) hei hed
  · intro hT hG hP
    have hcore := SoFinal.decolagem_core_falha_pista
      { a with ultimo_tempo_espera := env.tq }
      (if a.tipo = .INTERNACIONAL then
        { s with esperando_internacional := s.esperando_internacional + 1 }
      else { s with esperando_domestico := s.esperando_domestico + 1 })
      env (by simpa using hp) (by simpa using hg) (by simpa using ht)
      hrr hT hG hP
    simp only [SoFinal.decolagem, hpro]
    rw [hcore]
    refine ⟨rfl, ?_, by simpa using hp, by simp, rfl, rfl⟩
    refine SoFinal.sys_restaurada a.tipo s _
      (by split <;> simp [SoFinal.pool_debita_credita])
      (by split <;> rfl) (by split <;> (dsimp only; omega))
      (by split <;> (dsimp only; omega))
      (by cases htipo : a.tipo <;> simp [htipo])
      (by cases htipo : a.tipo <;> simp [htipo])
      (by split <;> rfl) (by split <;> rfl) hei hed

/-- C4 amended witness: a concrete International aircraft whose pouso
fails at the pista sem_wait exits with -1, fully restored shared state
and no held flags; a concrete So_restrito pass rolled back by a
per-resource timeout restores the semaphores and holds nothing; and a
concrete pass stopped by a->falhou leaks what it acquired. -/
theorem c4_rollback_amended_witness :
    ((SoFinal.pouso
      ⟨1, .INTERNACIONAL, .SUCESSO, false, 0, false, false, false,
        0, 0, 0, 0, 0, 0⟩
      ⟨⟨3, 5, 2⟩, 3, 5, 2, 0, 0, 0, 0⟩
      ⟨0, 0, false, 0, 0, .ok, true, true, false, 1⟩).ret = -1 ∧
    (SoFinal.pouso
      ⟨1, .INTERNACIONAL, .SUCESSO, false, 0, false, false, false,
        0, 0, 0, 0, 0, 0⟩
      ⟨⟨3, 5, 2⟩, 3, 5, 2, 0, 0, 0, 0⟩
      ⟨0, 0, false, 0, 0, .ok, true, true, false, 1⟩).s =
        ⟨⟨3, 5, 2⟩, 3, 5, 2, 0, 0, 0, 0⟩ ∧
    (SoFinal.pouso
      ⟨1, .INTERNACIONAL, .SUCESSO, false, 0, false, false, false,
        0, 0, 0, 0, 0, 0⟩
      ⟨⟨3, 5, 2⟩, 3, 5, 2, 0, 0, 0, 0⟩
      ⟨0, 0, false, 0, 0, .ok, true, true, false, 1⟩).a.has_pista = false ∧
    (SoFinal.pouso
      ⟨1, .INTERNACIONAL, .SUCESSO, false, 0, false, false, false,
        0, 0, 0, 0, 0, 0⟩
      ⟨⟨3, 5, 2⟩, 3, 5, 2, 0, 0, 0, 0⟩
      ⟨0, 0, false, 0, 0, .ok, true, true, false, 1⟩).a.has_portao = false ∧
    (SoFinal.pouso
      ⟨1, .INTERNACIONAL, .SUCESSO, false, 0, false, false, false,
        0, 0, 0, 0, 0, 0⟩
      ⟨⟨3, 5, 2⟩, 3, 5, 2, 0, 0, 0, 0⟩
      ⟨0, 0, false, 0, 0, .ok, true, true, false, 1⟩).a.has_torre = false ∧
    (SoFinal.pouso
      ⟨1, .INTERNACIONAL, .SUCESSO, false, 0, false, false, false,
        0, 0, 0, 0, 0, 0⟩
      ⟨⟨3, 5, 2⟩, 3, 5, 2, 0, 0, 0, 0⟩
      ⟨0, 0, false, 0, 0, .ok, true, true, false, 1⟩).tr =
        [SoFinal.Ev.reserva 1 0 1, SoFinal.Ev.semAcq .torre,
          SoFinal.Ev.semRel .torre, SoFinal.Ev.credita 1 0 1]) ∧
    ((SoRestrito.passo_aquisicao (fun _ => SoRestrito.ResPoll.timeout)
        [.pista] [] (fun _ => (0 : Int))).1 = (fun _ => (0 : Int)) ∧
      (SoRestrito.passo_aquisicao (fun _ => SoRestrito.ResPoll.timeout)
        [.pista] [] (fun _ => (0 : Int))).2.1 = []) ∧
    (∃ novos,
      (SoRestrito.passo_aquisicao
        (fun r => if r = .torre then SoRestrito.ResPoll.ok
          else SoRestrito.ResPoll.falha)
        (SoRestrito.ordem .DOMESTICO 2) [] (fun _ => (2 : Int))).2.1 =
        [] ++ novos ∧
      (SoRestrito.passo_aquisicao
        (fun r => if r = .torre then SoRestrito.ResPoll.ok
          else SoRestrito.ResPoll.falha)
        (SoRestrito.ordem .DOMESTICO 2) [] (fun _ => (2 : Int))).1 =
        fun x => 2 - SoRestrito.contagem x novos) := by
  have h := c4_rollback_amended
    ⟨1, .INTERNACIONAL, .SUCESSO, false, 0, false, false, false,
      0, 0, 0, 0, 0, 0⟩
    ⟨⟨3, 5, 2⟩, 3, 5, 2, 0, 0, 0, 0⟩
    ⟨0, 0, false, 0, 0, .ok, true, true, false, 1⟩
    rfl rfl rfl (by decide) (by decide) (by decide) rfl rfl
    (by decide) (by decide)
  exact ⟨h.1 rfl rfl,
    h.2.2.2.2.1 (fun _ => SoRestrito.ResPoll.timeout) [.pista]
      (fun _ => 0) rfl,
    h.2.2.2.2.2
      (fun r => if r = .torre then SoRestrito.ResPoll.ok
        else SoRestrito.ResPoll.falha)
      (SoRestrito.ordem .DOMESTICO 2) [] (fun _ => 2) rfl⟩

/-- C5.  Per-phase round trip in So-final.c: a phase that runs to
completion credits back to the reservation gate exactly what its reserve
call debited.  pouso debits (1,0,1) and credits (1,0,1); decolagem debits
(1,1,1) and credits (1,1,1); desembarque debits (0,1,1) and credits in two
parts, the torre part (0,0,1) immediately after the phase body and the
portao part (0,1,0) after the extra occupancy interval, the two parts
summing to the debit.  In all three cases the shared state, including the
pool, is fully restored. -/
theorem c5_round_trip (a : SoFinal.Aviao) (s : SoFinal.Sys)
    (env : SoFinal.FaseEnv)
    (hp : a.has_pista = false) (hg : a.has_portao = false)
    (ht : a.has_torre = false)
    (hst : SoFinal.eh_falha a.status_final = false)
    (hw1 : env.t1 - a.ultimo_tempo_espera < 60)
    (hw2 : env.t2 - env.tq < 60)
    (hsf : env.saidaFalha = false)
    (hrr : env.rr = .ok)
    (hT : env.okTorre = true) (hG : env.okPortao = true)
    (hP : env.okPista = true)
    (hei : 0 ≤ s.esperando_internacional)
    (hed : 0 ≤ s.esperando_domestico) :
    ((SoFinal.pouso a s env).ret = 0 ∧
      (SoFinal.pouso a s env).s = s ∧
      SoFinal.reservas (SoFinal.pouso a s env).tr = [(1, 0, 1)] ∧
      SoFinal.creditos (SoFinal.pouso a s env).tr = [(1, 0, 1)] ∧
      SoFinal.somaTriplas (SoFinal.creditos (SoFinal.pouso a s env).tr) =
        SoFinal.somaTriplas (SoFinal.reservas (SoFinal.pouso a s env).tr)) ∧
    ((SoFinal.desembarque a s env).ret = 0 ∧
      (SoFinal.desembarque a s env).s = s ∧
      SoFinal.reservas (SoFinal.desembarque a s env).tr = [(0, 1, 1)] ∧
      SoFinal.creditos (SoFinal.desembarque a s env).tr =
        [(0, 0, 1), (0, 1, 0)] ∧
      SoFinal.somaTriplas
          (SoFinal.creditos (SoFinal.desembarque a s env).tr) =
        SoFinal.somaTriplas
          (SoFinal.reservas (SoFinal.desembarque a s env).tr)) ∧
    ((SoFinal.decolagem a s env).ret = 0 ∧
      (SoFinal.decolagem a s env).s = s ∧
      SoFinal.reservas (SoFinal.decolagem a s env).tr = [(1, 1, 1)] ∧
      SoFinal.creditos (SoFinal.decolagem a s env).tr = [(1, 1, 1)] ∧
      SoFinal.somaTriplas (SoFinal.creditos (SoFinal.decolagem a s env).tr) =
        SoFinal.somaTriplas
          (SoFinal.reservas (SoFinal.decolagem a s env).tr)) := by
  have hpro := SoFinal.prologo_ok a s env hst hw1 hw2 hsf
  refine ⟨?_, ?_, ?_⟩
  · have hcore := SoFinal.pouso_core_sucesso
      { a with ultimo_tempo_espera := env.tq }
      (if a.tipo = .INTERNACIONAL then
        { s with esperando_internacional := s.esperando_internacional + 1 }
      else { s with esperando_domestico := s.esperando_domestico + 1 })
      env (by simpa using hp) (by simpa using ht) hrr hT hP
    simp only [SoFinal.pouso, hpro]
    rw [hcore]
    refine ⟨rfl, ?_, rfl, rfl, rfl⟩
    refine SoFinal.sys_restaurada a.tipo s _
      (by split <;> simp [SoFinal.pool_debita_credita])
      (by split <;> (dsimp only; omega))
      (by split <;> rfl)
      (by split <;> (dsimp only; omega))
      (by cases htipo : a.tipo <;> simp [htipo])
      (by cases htipo : a.tipo <;> simp [htipo])
      (by split <;> rfl) (by split <;> rfl) hei hed
  · have hcore := SoFinal.desembarque_core_sucesso
      { a with ultimo_tempo_espera := env.tq }
      (if a.tipo = .INTERNACIONAL then
        { s with esperando_internacional := s.esperando_internacional + 1 }
      else { s with esperando_domestico := s.esperando_domestico + 1 })
      env (by simpa using hg) (by simpa using ht) hrr hT hG
    simp only [SoFinal.desembarque, hpro]
    rw [hcore]
    refine ⟨rfl, ?_, rfl, rfl, rfl⟩
    refine SoFinal.sys_restaurada a.tipo s _
      (by split <;> simp [SoFinal.pool_debita_credita_split])
      (by split <;> rfl)
      (by split <;> (dsimp only; omega))
      (by split <;> (dsimp only; omega))
      (by cases htipo : a.tipo <;> simp [htipo])
      (by cases htipo : a.tipo <;> simp [htipo])
      (by split <;> rfl) (by split <;> rfl) hei hed
  · have hcore := SoFinal.decolagem_core_sucesso
      { a with ultimo_tempo_espera := env.tq }
      (if a.tipo = .INTERNACIONAL then
        { s with esperando_internacional := s.esperando_internacional + 1 }
      else { s with esperando_domestico := s.esperando_domestico + 1 })
      env (by simpa using hp) (by simpa using hg) (by simpa using ht)
      hrr hT hG hP
    simp only [SoFinal.decolagem, hpro]
    rw [hcore]
    refine ⟨rfl, ?_, rfl, rfl, rfl⟩
    refine SoFinal.sys_restaurada a.tipo s _
      (by split <;> simp [SoFinal.pool_debita_credita])
      (by split <;> (dsimp only; omega))
      (by split <;> (dsimp only; omega))
      (by split <;> (dsimp only; omega))
      (by cases htipo : a.tipo <;> simp [htipo])
      (by cases htipo : a.tipo <;> simp [htipo])
      (by split <;> rfl) (by split <;> rfl) hei hed

/-- C5 witness: a concrete Domestic aircraft completing desembarque debits
(0,1,1) and credits (0,0,1) then (0,1,0), restoring the state. -/
theorem c5_round_trip_witness :
    (SoFinal.desembarque
      ⟨2, .DOMESTICO, .SUCESSO, false, 0, false, false, false,
        0, 0, 0, 0, 0, 0⟩
      ⟨⟨3, 5, 2⟩, 3, 5, 2, 0, 0, 0, 0⟩
      ⟨0, 0, false, 0, 0, .ok, true, true, true, 1⟩).ret = 0 ∧
    (SoFinal.desembarque
      ⟨2, .DOMESTICO, .SUCESSO, false, 0, false, false, false,
        0, 0, 0, 0, 0, 0⟩
      ⟨⟨3, 5, 2⟩, 3, 5, 2, 0, 0, 0, 0⟩
      ⟨0, 0, false, 0, 0, .ok, true, true, true, 1⟩).s =
        ⟨⟨3, 5, 2⟩, 3, 5, 2, 0, 0, 0, 0⟩ ∧
    SoFinal.creditos (SoFinal.desembarque
      ⟨2, .DOMESTICO, .SUCESSO, false, 0, false, false, false,
        0, 0, 0, 0, 0, 0⟩
      ⟨⟨3, 5, 2⟩, 3, 5, 2, 0, 0, 0, 0⟩
      ⟨0, 0, false, 0, 0, .ok, true, true, true, 1⟩).tr =
        [(0, 0, 1), (0, 1, 0)] := by
  have h := c5_round_trip
    ⟨2, .DOMESTICO, .SUCESSO, false, 0, false, false, false,
      0, 0, 0, 0, 0, 0⟩
    ⟨⟨3, 5, 2⟩, 3, 5, 2, 0, 0, 0, 0⟩
    ⟨0, 0, false, 0, 0, .ok, true, true, true, 1⟩
    rfl rfl rfl (by decide) (by decide) (by decide) rfl rfl rfl rfl rfl
    (by decide) (by decide)
  exact ⟨h.2.1.1, h.2.1.2.1, h.2.1.2.2.2.1⟩
namespace SoFinal

/-- With no pista ever available and a positive pista need, every wakeup
of reservar_recursos allocates nothing, so the call times out. -/
theorem reservar_timeout_sem_pista (np ng nt : Int) (hnp : 1 ≤ np) :
    ∀ obs : List ObsReserva,
      (∀ o ∈ obs, o.simulacao_ativa = true ∧ o.falha = false ∧
        o.pool.pistas_disp ≤ 0) →
      reservar_recursos np ng nt obs = .timeout := by
  intro obs
  induction obs with
  | nil => intro _; rfl
  | cons o resto ih =>
    intro hall
    obtain ⟨ha, hf, hpool⟩ := hall o (List.mem_cons_self o resto)
    have hsuf : ¬ o.pool.suficiente np ng nt := by
      rintro ⟨h1, -, -⟩
      omega
    have hnone : tenta_alocar o np ng nt = none := by
      unfold tenta_alocar
      by_cases hal : o.em_alerta_critico
      · simp [hal, hsuf]
      · by_cases hy : o.tipo = .DOMESTICO ∧ 0 < o.esperando_internacional
        · simp [hal, hy]
        · simp [hal, hy, hsuf]
    unfold reservar_recursos
    rw [ha]
    simp only [Bool.true_eq_false, if_false, hf, hnone]
    exact ih fun o1 ho1 => hall o1 (List.mem_cons_of_mem _ ho1)

end SoFinal

/-- C9.  A reserve timeout fails the phase: in each of the three phase
operations of So-final.c, a reservar_recursos timeout sets the status to
FALHA, releases the priority registration (the shared state is restored
exactly), performs no resource action, and returns -1.  With the pista
counter never positive (runway capacity 0) and a positive pista need, the
reservation itself always returns timeout; consequently an aircraft whose
landing reservation times out ends its thread with status FALHA, not
SUCESSO. -/
theorem c9_timeout_falha (a : SoFinal.Aviao) (s : SoFinal.Sys)
    (env : SoFinal.FaseEnv)
    (hst : SoFinal.eh_falha a.status_final = false)
    (hw1 : env.t1 - a.ultimo_tempo_espera < 60)
    (hw2 : env.t2 - env.tq < 60)
    (hsf : env.saidaFalha = false)
    (hei : 0 ≤ s.esperando_internacional)
    (hed : 0 ≤ s.esperando_domestico) :
    (env.rr = .timeout →
      ((SoFinal.pouso a s env).ret = -1 ∧
        (SoFinal.pouso a s env).a.status_final = .FALHA ∧
        (SoFinal.pouso a s env).s = s ∧
        (SoFinal.pouso a s env).tr = []) ∧
      ((SoFinal.desembarque a s env).ret = -1 ∧
        (SoFinal.desembarque a s env).a.status_final = .FALHA ∧
        (SoFinal.desembarque a s env).s = s ∧
        (SoFinal.desembarque a s env).tr = []) ∧
      ((SoFinal.decolagem a s env).ret = -1 ∧
        (SoFinal.decolagem a s env).a.status_final = .FALHA ∧
        (SoFinal.decolagem a s env).s = s ∧
        (SoFinal.decolagem a s env).tr = [])) ∧
    (∀ (np ng nt : Int), 1 ≤ np →
      ∀ obs : List SoFinal.ObsReserva,
        (∀ o ∈ obs, o.simulacao_ativa = true ∧ o.falha = false ∧
          o.pool.pistas_disp ≤ 0) →
        SoFinal.reservar_recursos np ng nt obs = .timeout) ∧
    (∀ te : SoFinal.ThreadEnv,
      te.e1.t1 - te.t0 < 60 → te.e1.t2 - te.e1.tq < 60 →
      te.e1.saidaFalha = false → te.e1.rr = .timeout →
      (SoFinal.aviao_thread a s te).1.status_final = .FALHA ∧
      (SoFinal.aviao_thread a s te).1.status_final ≠ .SUCESSO) := by
  have hrestore : ∀ tipo : SoFinal.TipoVoo,
      SoFinal.liberar_prioridade tipo
        (if tipo = .INTERNACIONAL then
          { s with esperando_internacional := s.esperando_internacional + 1 }
        else
          { s with esperando_domestico := s.esperando_domestico + 1 }) = s := by
    intro tipo
    refine SoFinal.sys_restaurada tipo s _
      (by split <;> rfl) (by split <;> rfl) (by split <;> rfl)
      (by split <;> rfl)
      (by cases tipo <;> simp)
      (by cases tipo <;> simp)
      (by split <;> rfl) (by split <;> rfl) hei hed
  refine ⟨?_, fun np ng nt hnp obs hall =>
    SoFinal.reservar_timeout_sem_pista np ng nt hnp obs hall, ?_⟩
  · intro hrr
    have hpro := SoFinal.prologo_ok a s env hst hw1 hw2 hsf
    refine ⟨?_, ?_, ?_⟩
    · simp only [SoFinal.pouso, hpro]
      rw [SoFinal.pouso_core_timeout _ _ _ hrr]
      exact ⟨rfl, rfl, hrestore a.tipo, rfl⟩
    · simp only [SoFinal.desembarque, hpro]
      rw [SoFinal.desembarque_core_timeout _ _ _ hrr]
      exact ⟨rfl, rfl, hrestore a.tipo, rfl⟩
    · simp only [SoFinal.decolagem, hpro]
      rw [SoFinal.decolagem_core_timeout _ _ _ hrr]
      exact ⟨rfl, rfl, hrestore a.tipo, rfl⟩
  · intro te hw1t hw2t hsft hrrt
    have hthread : (SoFinal.aviao_thread a s te).1.status_final = .FALHA := by
      have hpro := SoFinal.prologo_ok
        { a with
          ultimo_tempo_espera := te.t0,
          has_pista := false,
          has_portao := false,
          has_torre := false } s te.e1
        (by simpa using hst) (by simpa using hw1t) hw2t hsft
      simp only [SoFinal.aviao_thread, SoFinal.pouso, hpro]
      rw [SoFinal.pouso_core_timeout _ _ _ hrrt]
      norm_num
    exact ⟨hthread, by rw [hthread]; intro h; cases h⟩
/-- C9 witness: a concrete timed-out landing marks the aircraft FALHA and
returns -1; a concrete empty-runway observation list times out; the
concrete thread ends FALHA. -/
theorem c9_timeout_falha_witness :
    (SoFinal.pouso
      ⟨4, .DOMESTICO, .SUCESSO, false, 0, false, false, false,
        0, 0, 0, 0, 0, 0⟩
      ⟨⟨0, 5, 2⟩, 0, 5, 2, 0, 0, 0, 0⟩
      ⟨0, 0, false, 0, 0, .timeout, true, true, true, 1⟩).ret = -1 ∧
    (SoFinal.pouso
      ⟨4, .DOMESTICO, .SUCESSO, false, 0, false, false, false,
        0, 0, 0, 0, 0, 0⟩
      ⟨⟨0, 5, 2⟩, 0, 5, 2, 0, 0, 0, 0⟩
      ⟨0, 0, false, 0, 0, .timeout, true, true, true, 1⟩).a.status_final =
      .FALHA ∧
    SoFinal.reservar_recursos 1 0 1
      [⟨true, false, false, .DOMESTICO, 0, ⟨0, 5, 2⟩⟩] = .timeout ∧
    (SoFinal.aviao_thread
      ⟨4, .DOMESTICO, .SUCESSO, false, 0, false, false, false,
        0, 0, 0, 0, 0, 0⟩
      ⟨⟨0, 5, 2⟩, 0, 5, 2, 0, 0, 0, 0⟩
      ⟨0, ⟨0, 0, false, 0, 0, .timeout, true, true, true, 1⟩,
        0, ⟨0, 0, false, 0, 0, .timeout, true, true, true, 1⟩,
        0, ⟨0, 0, false, 0, 0, .timeout, true, true, true, 1⟩⟩).1.status_final
      = .FALHA := by
  have h := c9_timeout_falha
    ⟨4, .DOMESTICO, .SUCESSO, false, 0, false, false, false,
      0, 0, 0, 0, 0, 0⟩
    ⟨⟨0, 5, 2⟩, 0, 5, 2, 0, 0, 0, 0⟩
    ⟨0, 0, false, 0, 0, .timeout, true, true, true, 1⟩
    (by decide) (by decide) (by decide) rfl (by decide) (by decide)
  exact ⟨(h.1 rfl).1.1, (h.1 rfl).1.2.1,
    h.2.1 1 0 1 (by decide) _ (by decide),
    (h.2.2 ⟨0, ⟨0, 0, false, 0, 0, .timeout, true, true, true, 1⟩,
      0, ⟨0, 0, false, 0, 0, .timeout, true, true, true, 1⟩,
      0, ⟨0, 0, false, 0, 0, .timeout, true, true, true, 1⟩⟩
      (by decide) (by decide) rfl rfl).1⟩
namespace SoFinal

/-- A phase stopped in the prologue carries the -1 return code. -/
theorem prologo_inl_ret (a : Aviao) (s : Sys) (env : FaseEnv) (r : FaseRes)
    (h : prologo a s env = Sum.inl r) : r.ret = -1 := by
  simp only [prologo] at h
  split at h
  · cases h; rfl
  · split at h
    · cases h; rfl
    · simp at h

/-- A pouso body that returns success always clears the critical-alert
flag (So-final.c line 355). -/
theorem pouso_core_limpa_alerta (a3 : Aviao) (s3 : Sys) (env : FaseEnv) :
    (pouso_core a3 s3 env).ret = 0 →
    (pouso_core a3 s3 env).a.em_alerta_critico = false := by
  obtain ⟨i, tp, st, al, ult, hpv, hgv, htv, ip, fp, idb, fdb, idc, fdc⟩ := a3
  obtain ⟨t1, tq, sf, t2, tini, rr, okT, okG, okP, tfim⟩ := env
  cases rr <;> cases hpv <;> cases hgv <;> cases htv <;>
    cases okT <;> cases okG <;> cases okP <;>
    intro h <;>
    first
    | rfl
    | exact absurd h (by norm_num : ¬((-1 : Int) = 0))
    | exact absurd h (by norm_num : ¬((-2 : Int) = 0))
    | exact absurd h (by norm_num : ¬((-3 : Int) = 0))

/-- A desembarque body that returns success always clears the
critical-alert flag (So-final.c line 419). -/
theorem desembarque_core_limpa_alerta (a3 : Aviao) (s3 : Sys)
    (env : FaseEnv) :
    (desembarque_core a3 s3 env).ret = 0 →
    (desembarque_core a3 s3 env).a.em_alerta_critico = false := by
  obtain ⟨i, tp, st, al, ult, hpv, hgv, htv, ip, fp, idb, fdb, idc, fdc⟩ := a3
  obtain ⟨t1, tq, sf, t2, tini, rr, okT, okG, okP, tfim⟩ := env
  cases rr <;> cases hpv <;> cases hgv <;> cases htv <;>
    cases okT <;> cases okG <;> cases okP <;>
    intro h <;>
    first
    | rfl
    | exact absurd h (by norm_num : ¬((-1 : Int) = 0))
    | exact absurd h (by norm_num : ¬((-2 : Int) = 0))
    | exact absurd h (by norm_num : ¬((-3 : Int) = 0))

/-- A decolagem body that returns success always clears the
critical-alert flag (So-final.c line 492). -/
theorem decolagem_core_limpa_alerta (a3 : Aviao) (s3 : Sys)
    (env : FaseEnv) :
    (decolagem_core a3 s3 env).ret = 0 →
    (decolagem_core a3 s3 env).a.em_alerta_critico = false := by
  obtain ⟨i, tp, st, al, ult, hpv, hgv, htv, ip, fp, idb, fdb, idc, fdc⟩ := a3
  obtain ⟨t1, tq, sf, t2, tini, rr, okT, okG, okP, tfim⟩ := env
  cases rr <;> cases hpv <;> cases hgv <;> cases htv <;>
    cases okT <;> cases okG <;> cases okP <;>
    intro h <;>
    first
    | rfl
    | exact absurd h (by norm_num : ¬((-1 : Int) = 0))
    | exact absurd h (by norm_num : ¬((-2 : Int) = 0))
    | exact absurd h (by norm_num : ¬((-3 : Int) = 0))

end SoFinal

/-- C7 counterexample: the aging override of So-final.c is not permanent
for the remainder of the lifecycle.  A concrete Domestic aircraft holding
the critical-alert override completes its pouso successfully (return 0,
so its thread proceeds to the next phase) and exits the phase with
em_alerta_critico already cleared, making it subject to the yield rule
again in desembarque. -/
theorem c7_aging_counterexample :
    (SoFinal.pouso
      ⟨5, .DOMESTICO, .ALERTA_CRITICO, true, 0, false, false, false,
        0, 0, 0, 0, 0, 0⟩
      ⟨⟨3, 5, 2⟩, 3, 5, 2, 0, 0, 0, 0⟩
      ⟨0, 0, false, 0, 0, .ok, true, true, true, 1⟩).ret = 0 ∧
    (SoFinal.pouso
      ⟨5, .DOMESTICO, .ALERTA_CRITICO, true, 0, false, false, false,
        0, 0, 0, 0, 0, 0⟩
      ⟨⟨3, 5, 2⟩, 3, 5, 2, 0, 0, 0, 0⟩
      ⟨0, 0, false, 0, 0, .ok, true, true, true, 1⟩).a.em_alerta_critico =
      false ∧
    (SoFinal.pouso
      ⟨5, .DOMESTICO, .ALERTA_CRITICO, true, 0, false, false, false,
        0, 0, 0, 0, 0, 0⟩
      ⟨⟨3, 5, 2⟩, 3, 5, 2, 0, 0, 0, 0⟩
      ⟨0, 0, false, 0, 0, .ok, true, true, true, 1⟩).a.status_final =
      .SUCESSO := by decide

/-- C7 amended: the override is per-phase, not per-lifecycle, in
So-final.c and So_refatorado_corrigido.c: every phase operation that
returns success clears em_alerta_critico on exit, so the aircraft can
yield again in a later phase (it may only be re-granted by a fresh 60
second alert).  In So.c, by contrast, the aging boost is permanent:
checa_starvation never clears boosted once set, and it grants boosted
together with prioridade_efetiva = 3 when the 60-second threshold fires
for an unalerted, unboosted aircraft. -/
theorem c7_aging_amended (a : SoFinal.Aviao) (s : SoFinal.Sys)
    (env : SoFinal.FaseEnv) (b : SoC.Aviao)
    (t total_boosts total_alertas total_falha : Int) :
    ((SoFinal.pouso a s env).ret = 0 →
      (SoFinal.pouso a s env).a.em_alerta_critico = false) ∧
    ((SoFinal.desembarque a s env).ret = 0 →
      (SoFinal.desembarque a s env).a.em_alerta_critico = false) ∧
    ((SoFinal.decolagem a s env).ret = 0 →
      (SoFinal.decolagem a s env).a.em_alerta_critico = false) ∧
    (b.boosted = true →
      ((SoC.checa_starvation b t total_boosts total_alertas
        total_falha).1).boosted = true) ∧
    (b.falhou = false → 60 ≤ t - b.inicio_espera →
      b.alertas_starvation = 0 → b.boosted = false →
      ((SoC.checa_starvation b t total_boosts total_alertas
        total_falha).1).boosted = true ∧
      ((SoC.checa_starvation b t total_boosts total_alertas
        total_falha).1).prioridade_efetiva = 3) := by
  refine ⟨?_, ?_, ?_, ?_, ?_⟩
  · intro h
    rcases hpro : SoFinal.prologo a s env with r | p
    · simp only [SoFinal.pouso, hpro] at h
      have := SoFinal.prologo_inl_ret a s env r hpro
      omega
    · simp only [SoFinal.pouso, hpro] at h ⊢
      exact SoFinal.pouso_core_limpa_alerta p.1 p.2 env h
  · intro h
    rcases hpro : SoFinal.prologo a s env with r | p
    · simp only [SoFinal.desembarque, hpro] at h
      have := SoFinal.prologo_inl_ret a s env r hpro
      omega
    · simp only [SoFinal.desembarque, hpro] at h ⊢
      exact SoFinal.desembarque_core_limpa_alerta p.1 p.2 env h
  · intro h
    rcases hpro : SoFinal.prologo a s env with r | p
    · simp only [SoFinal.decolagem, hpro] at h
      have := SoFinal.prologo_inl_ret a s env r hpro
      omega
    · simp only [SoFinal.decolagem, hpro] at h ⊢
      exact SoFinal.decolagem_core_limpa_alerta p.1 p.2 env h
  · intro hb
    simp only [SoC.checa_starvation]
    split_ifs <;> simp_all
  · intro hf hesp hal hb
    simp only [SoC.checa_starvation]
    split_ifs <;> simp_all

/-- C7 amended witness: the concrete boosted So.c aircraft keeps its
boost through checa_starvation, and a fresh alert grants the boost. -/
theorem c7_aging_amended_witness :
    ((SoC.checa_starvation
      ⟨.DOMESTICO, .EST_AGUARDANDO_POUSO, 0, 1, false, true, 1, 3⟩
      100 0 0 0).1).boosted = true ∧
    ((SoC.checa_starvation
      ⟨.DOMESTICO, .EST_AGUARDANDO_POUSO, 0, 0, false, false, 1, 1⟩
      70 0 0 0).1).boosted = true ∧
    ((SoC.checa_starvation
      ⟨.DOMESTICO, .EST_AGUARDANDO_POUSO, 0, 0, false, false, 1, 1⟩
      70 0 0 0).1).prioridade_efetiva = 3 := by
  have h := c7_aging_amended
    ⟨5, .DOMESTICO, .ALERTA_CRITICO, true, 0, false, false, false,
      0, 0, 0, 0, 0, 0⟩
    ⟨⟨3, 5, 2⟩, 3, 5, 2, 0, 0, 0, 0⟩
    ⟨0, 0, false, 0, 0, .ok, true, true, true, 1⟩
    ⟨.DOMESTICO, .EST_AGUARDANDO_POUSO, 0, 1, false, true, 1, 3⟩
    100 0 0 0
  have h2 := c7_aging_amended
    ⟨5, .DOMESTICO, .ALERTA_CRITICO, true, 0, false, false, false,
      0, 0, 0, 0, 0, 0⟩
    ⟨⟨3, 5, 2⟩, 3, 5, 2, 0, 0, 0, 0⟩
    ⟨0, 0, false, 0, 0, .ok, true, true, true, 1⟩
    ⟨.DOMESTICO, .EST_AGUARDANDO_POUSO, 0, 0, false, false, 1, 1⟩
    70 0 0 0
  exact ⟨h.2.2.2.1 rfl, (h2.2.2.2.2 rfl (by decide) rfl rfl).1,
    (h2.2.2.2.2 rfl (by decide) rfl rfl).2⟩
namespace SoFinal

/-- Success leaf of the pouso body when the torre flag is already held at
entry: the torre acquisition is skipped (no torre sem_wait, need 0), only
the pista is acquired, and the release path still posts the held torre
and clears its flag. -/
theorem pouso_core_sucesso_torre (a3 : Aviao) (s3 : Sys) (env : FaseEnv)
    (hp : a3.has_pista = false) (ht : a3.has_torre = true)
    (hrr : env.rr = .ok) (hP : env.okPista = true) :
    pouso_core a3 s3 env = ⟨0,
      { a3 with
        inicio_pouso := env.tini,
        has_pista := false,
        has_torre := false,
        fim_pouso := env.tfim,
        ultimo_tempo_espera := env.tfim,
        em_alerta_critico := false,
        status_final :=
          if a3.status_final = .ALERTA_CRITICO then .SUCESSO
          else a3.status_final },
      liberar_prioridade a3.tipo
        { s3 with
          pool := (s3.pool.debita 1 0 0).credita 1 0 0,
          sem_pistas := s3.sem_pistas - 1 + 1,
          sem_torres := s3.sem_torres + 1 },
      [Ev.reserva 1 0 0, Ev.semAcq .pista, Ev.semRel .pista,
        Ev.semRel .torre, Ev.credita 1 0 0]⟩ := by
  obtain ⟨i, tp, st, al, ult, hpv, hgv, htv, ip, fp, idb, fdb, idc, fdc⟩ := a3
  obtain ⟨t1, tq, sf, t2, tini, rr, okT, okG, okP, tfim⟩ := env
  simp only at hp ht hrr hP
  subst hp ht hrr hP
  cases okT <;> rfl

end SoFinal

/-- C8 counterexample: the acquisition order is not a single fixed order
regardless of flight class in So.c and So_restrito.c.  There the Takeoff
order for an International aircraft is portao, pista, torre — not the
claimed torre, portao, pista used for Domestic — and Landing for an
International is pista before torre. -/
theorem c8_ordem_counterexample :
    SoC.ordemDecolagem .INTERNACIONAL ≠ [.torre, .portao, .pista] ∧
    SoC.ordemDecolagem .INTERNACIONAL ≠ SoC.ordemDecolagem .DOMESTICO ∧
    SoC.ordemPouso .INTERNACIONAL ≠ [.torre, .pista] ∧
    SoRestrito.ordem .INTERNACIONAL 2 ≠ SoRestrito.ordem .DOMESTICO 2 := by
  decide

/-- C8 amended: in So-final.c the physical acquisition order inside each
phase is the fixed torre-first order for every aircraft of either class —
pouso acquires torre then pista, desembarque torre then portao, decolagem
torre then portao then pista — and a resource whose progress flag is
already held is skipped, never re-acquired (a pouso entered holding the
torre acquires only the pista).  In So.c and So_restrito.c, however, the
order depends on the flight class: Domestic follows the torre-first
order while International acquires pista before torre for Landing, portao
before torre for Disembarkation, and portao, pista, torre for Takeoff. -/
theorem c8_ordem_fixa_amended (a : SoFinal.Aviao) (s : SoFinal.Sys)
    (env : SoFinal.FaseEnv)
    (hst : SoFinal.eh_falha a.status_final = false)
    (hw1 : env.t1 - a.ultimo_tempo_espera < 60)
    (hw2 : env.t2 - env.tq < 60)
    (hsf : env.saidaFalha = false)
    (hrr : env.rr = .ok)
    (hT : env.okTorre = true) (hG : env.okPortao = true)
    (hP : env.okPista = true) :
    (a.has_pista = false → a.has_portao = false → a.has_torre = false →
      SoFinal.aquisicoes (SoFinal.pouso a s env).tr = [.torre, .pista] ∧
      SoFinal.aquisicoes (SoFinal.desembarque a s env).tr =
        [.torre, .portao] ∧
      SoFinal.aquisicoes (SoFinal.decolagem a s env).tr =
        [.torre, .portao, .pista]) ∧
    (a.has_pista = false → a.has_torre = true →
      SoFinal.aquisicoes (SoFinal.pouso a s env).tr = [.pista] ∧
      SoFinal.reservas (SoFinal.pouso a s env).tr = [(1, 0, 0)]) ∧
    (SoC.ordemPouso .DOMESTICO = [.torre, .pista] ∧
      SoC.ordemPouso .INTERNACIONAL = [.pista, .torre] ∧
      SoC.ordemDesembarque .DOMESTICO = [.torre, .portao] ∧
      SoC.ordemDesembarque .INTERNACIONAL = [.portao, .torre] ∧
      SoC.ordemDecolagem .DOMESTICO = [.torre, .portao, .pista] ∧
      SoC.ordemDecolagem .INTERNACIONAL = [.portao, .pista, .torre]) := by
  have hpro := SoFinal.prologo_ok a s env hst hw1 hw2 hsf
  refine ⟨?_, ?_, by decide⟩
  · intro hp hg ht
    refine ⟨?_, ?_, ?_⟩
    · have hcore := SoFinal.pouso_core_sucesso
        { a with ultimo_tempo_espera := env.tq }
        (if a.tipo = .INTERNACIONAL then
          { s with esperando_internacional := s.esperando_internacional + 1 }
        else { s with esperando_domestico := s.esperando_domestico + 1 })
        env (by simpa using hp) (by simpa using ht) hrr hT hP
      simp only [SoFinal.pouso, hpro]
      rw [hcore]
      rfl
    · have hcore := SoFinal.desembarque_core_sucesso
        { a with ultimo_tempo_espera := env.tq }
        (if a.tipo = .INTERNACIONAL then
          { s with esperando_internacional := s.esperando_internacional + 1 }
        else { s with esperando_domestico := s.esperando_domestico + 1 })
        env (by simpa using hg) (by simpa using ht) hrr hT hG
      simp only [SoFinal.desembarque, hpro]
      rw [hcore]
      rfl
    · have hcore := SoFinal.decolagem_core_sucesso
        { a with ultimo_tempo_espera := env.tq }
        (if a.tipo = .INTERNACIONAL then
          { s with esperando_internacional := s.esperando_internacional + 1 }
        else { s with esperando_domestico := s.esperando_domestico + 1 })
        env (by simpa using hp) (by simpa using hg) (by simpa using ht)
        hrr hT hG hP
      simp only [SoFinal.decolagem, hpro]
      rw [hcore]
      rfl
  · intro hp ht
    have hcore := SoFinal.pouso_core_sucesso_torre
      { a with ultimo_tempo_espera := env.tq }
      (if a.tipo = .INTERNACIONAL then
        { s with esperando_internacional := s.esperando_internacional + 1 }
      else { s with esperando_domestico := s.esperando_domestico + 1 })
      env (by simpa using hp) (by simpa using ht) hrr hP
    simp only [SoFinal.pouso, hpro]
    rw [hcore]
    exact ⟨rfl, rfl⟩

/-- C8 amended witness: a concrete International aircraft acquires torre
then portao then pista at decolagem in So-final.c, and skips the torre at
pouso when already holding it. -/
theorem c8_ordem_fixa_amended_witness :
    SoFinal.aquisicoes (SoFinal.decolagem
      ⟨6, .INTERNACIONAL, .SUCESSO, false, 0, false, false, false,
        0, 0, 0, 0, 0, 0⟩
      ⟨⟨3, 5, 2⟩, 3, 5, 2, 0, 0, 0, 0⟩
      ⟨0, 0, false, 0, 0, .ok, true, true, true, 1⟩).tr =
      [.torre, .portao, .pista] ∧
    SoFinal.aquisicoes (SoFinal.pouso
      ⟨6, .INTERNACIONAL, .SUCESSO, false, 0, false, false, true,
        0, 0, 0, 0, 0, 0⟩
      ⟨⟨3, 5, 2⟩, 3, 5, 2, 0, 0, 0, 0⟩
      ⟨0, 0, false, 0, 0, .ok, true, true, true, 1⟩).tr = [.pista] := by
  have h1 := c8_ordem_fixa_amended
    ⟨6, .INTERNACIONAL, .SUCESSO, false, 0, false, false, false,
      0, 0, 0, 0, 0, 0⟩
    ⟨⟨3, 5, 2⟩, 3, 5, 2, 0, 0, 0, 0⟩
    ⟨0, 0, false, 0, 0, .ok, true, true, true, 1⟩
    (by decide) (by decide) (by decide) rfl rfl rfl rfl rfl
  have h2 := c8_ordem_fixa_amended
    ⟨6, .INTERNACIONAL, .SUCESSO, false, 0, false, true, true,
      0, 0, 0, 0, 0, 0⟩
    ⟨⟨3, 5, 2⟩, 3, 5, 2, 0, 0, 0, 0⟩
    ⟨0, 0, false, 0, 0, .ok, true, true, true, 1⟩
    (by decide) (by decide) (by decide) rfl rfl rfl rfl rfl
  exact ⟨(h1.1 rfl rfl rfl).2.2, (h2.2.1 rfl rfl).1⟩
namespace SoFinal

/-- Whole-phase success equation for pouso: under a quiet prologue and an
all-success oracle, the phase returns 0, the aircraft with pista and torre
flags cleared, the fully restored shared state, and the reserve-acquire-
release-credit trace of the phase. -/
theorem pouso_eq_sucesso (a : Aviao) (s : Sys) (env : FaseEnv)
    (hp : a.has_pista = false) (ht : a.has_torre = false)
    (hst : eh_falha a.status_final = false)
    (hw1 : env.t1 - a.ultimo_tempo_espera < 60)
    (hw2 : env.t2 - env.tq < 60)
    (hsf : env.saidaFalha = false)
    (hrr : env.rr = .ok)
    (hT : env.okTorre = true) (hP : env.okPista = true)
    (hei : 0 ≤ s.esperando_internacional)
    (hed : 0 ≤ s.esperando_domestico) :
    pouso a s env = ⟨0,
      { a with
        inicio_pouso := env.tini,
        has_pista := false,
        has_torre := false,
        fim_pouso := env.tfim,
        ultimo_tempo_espera := env.tfim,
        em_alerta_critico := false,
        status_final :=
          if a.status_final = .ALERTA_CRITICO then .SUCESSO
          else a.status_final },
      s,
      [Ev.reserva 1 0 1, Ev.semAcq .torre, Ev.semAcq .pista,
        Ev.semRel .pista, Ev.semRel .torre, Ev.credita 1 0 1]⟩ := by
  have hpro := prologo_ok a s env hst hw1 hw2 hsf
  have hcore := pouso_core_sucesso
    { a with ultimo_tempo_espera := env.tq }
    (if a.tipo = .INTERNACIONAL then
      { s with esperando_internacional := s.esperando_internacional + 1 }
    else { s with esperando_domestico := s.esperando_domestico + 1 })
    env (by simpa using hp) (by simpa using ht) hrr hT hP
  simp only [pouso, hpro]
  rw [hcore]
  simp only [FaseRes.mk.injEq]
  refine ⟨trivial, trivial, ?_, trivial⟩
  refine sys_restaurada a.tipo s _
    (by split <;> simp [pool_debita_credita])
    (by split <;> (dsimp only; omega))
    (by split <;> rfl)
    (by split <;> (dsimp only; omega))
    (by cases htipo : a.tipo <;> simp [htipo])
    (by cases htipo : a.tipo <;> simp [htipo])
    (by split <;> rfl) (by split <;> rfl) hei hed

/-- Whole-phase success equation for desembarque: torre released and its
reservation part credited first, the portao part after the extra
occupancy, and the shared state fully restored. -/
theorem desembarque_eq_sucesso (a : Aviao) (s : Sys) (env : FaseEnv)
    (hg : a.has_portao = false) (ht : a.has_torre = false)
    (hst : eh_falha a.status_final = false)
    (hw1 : env.t1 - a.ultimo_tempo_espera < 60)
    (hw2 : env.t2 - env.tq < 60)
    (hsf : env.saidaFalha = false)
    (hrr : env.rr = .ok)
    (hT : env.okTorre = true) (hG : env.okPortao = true)
    (hei : 0 ≤ s.esperando_internacional)
    (hed : 0 ≤ s.esperando_domestico) :
    desembarque a s env = ⟨0,
      { a with
        inicio_desembarque := env.tini,
        has_portao := false,
        has_torre := false,
        fim_desembarque := env.tfim,
        ultimo_tempo_espera := env.tfim,
        em_alerta_critico := false,
        status_final :=
          if a.status_final = .ALERTA_CRITICO then .SUCESSO
          else a.status_final },
      s,
      [Ev.reserva 0 1 1, Ev.semAcq .torre, Ev.semAcq .portao,
        Ev.semRel .torre, Ev.credita 0 0 1, Ev.semRel .portao,
        Ev.credita 0 1 0]⟩ := by
  have hpro := prologo_ok a s env hst hw1 hw2 hsf
  have hcore := desembarque_core_sucesso
    { a with ultimo_tempo_espera := env.tq }
    (if a.tipo = .INTERNACIONAL then
      { s with esperando_internacional := s.esperando_internacional + 1 }
    else { s with esperando_domestico := s.esperando_domestico + 1 })
    env (by simpa using hg) (by simpa using ht) hrr hT hG
  simp only [desembarque, hpro]
  rw [hcore]
  simp only [FaseRes.mk.injEq]
  refine ⟨trivial, trivial, ?_, trivial⟩
  refine sys_restaurada a.tipo s _
    (by split <;> simp [pool_debita_credita_split])
    (by split <;> rfl)
    (by split <;> (dsimp only; omega))
    (by split <;> (dsimp only; omega))
    (by cases htipo : a.tipo <;> simp [htipo])
    (by cases htipo : a.tipo <;> simp [htipo])
    (by split <;> rfl) (by split <;> rfl) hei hed

/-- Whole-phase success equation for decolagem: all three resources
acquired and released inside the phase, the shared state fully
restored. -/
theorem decolagem_eq_sucesso (a : Aviao) (s : Sys) (env : FaseEnv)
    (hp : a.has_pista = false) (hg : a.has_portao = false)
    (ht : a.has_torre = false)
    (hst : eh_falha a.status_final = false)
    (hw1 : env.t1 - a.ultimo_tempo_espera < 60)
    (hw2 : env.t2 - env.tq < 60)
    (hsf : env.saidaFalha = false)
    (hrr : env.rr = .ok)
    (hT : env.okTorre = true) (hG : env.okPortao = true)
    (hP : env.okPista = true)
    (hei : 0 ≤ s.esperando_internacional)
    (hed : 0 ≤ s.esperando_domestico) :
    decolagem a s env = ⟨0,
      { a with
        inicio_decolagem := env.tini,
        has_pista := false,
        has_portao := false,
        has_torre := false,
        fim_decolagem := env.tfim,
        ultimo_tempo_espera := env.tfim,
        em_alerta_critico := false,
        status_final :=
          if a.status_final = .ALERTA_CRITICO then .SUCESSO
          else a.status_final },
      s,
      [Ev.reserva 1 1 1, Ev.semAcq .torre, Ev.semAcq .portao,
        Ev.semAcq .pista, Ev.semRel .torre, Ev.semRel .portao,
        Ev.semRel .pista, Ev.credita 1 1 1]⟩ := by
  have hpro := prologo_ok a s env hst hw1 hw2 hsf
  have hcore := decolagem_core_sucesso
    { a with ultimo_tempo_espera := env.tq }
    (if a.tipo = .INTERNACIONAL then
      { s with esperando_internacional := s.esperando_internacional + 1 }
    else { s with esperando_domestico := s.esperando_domestico + 1 })
    env (by simpa using hp) (by simpa using hg) (by simpa using ht)
    hrr hT hG hP
  simp only [decolagem, hpro]
  rw [hcore]
  simp only [FaseRes.mk.injEq]
  refine ⟨trivial, trivial, ?_, trivial⟩
  refine sys_restaurada a.tipo s _
    (by split <;> simp [pool_debita_credita])
    (by split <;> (dsimp only; omega))
    (by split <;> (dsimp only; omega))
    (by split <;> (dsimp only; omega))
    (by cases htipo : a.tipo <;> simp [htipo])
    (by cases htipo : a.tipo <;> simp [htipo])
    (by split <;> rfl) (by split <;> rfl) hei hed

end SoFinal
/-- C10: at the entry of every phase run by aviao_thread all three
held-progress flags are false — the thread clears them before pouso
(So-final.c lines 504-507), and each successful phase exits with every
flag it set cleared again — so the reserve call of each phase debits the
phase's full resource requirement, (1,0,1) for pouso, (0,1,1) for
desembarque and (1,1,1) for decolagem, and no held resource is ever
carried from one phase into the next; the completed thread holds no
resource, ends SUCESSO, and leaves the shared state as it found it. -/
theorem c10_sem_encadeamento (a0 : SoFinal.Aviao) (s : SoFinal.Sys)
    (te : SoFinal.ThreadEnv)
    (hst : SoFinal.eh_falha a0.status_final = false)
    (h1w1 : te.e1.t1 - te.t0 < 60) (h1w2 : te.e1.t2 - te.e1.tq < 60)
    (h1sf : te.e1.saidaFalha = false) (h1rr : te.e1.rr = .ok)
    (h1T : te.e1.okTorre = true) (h1P : te.e1.okPista = true)
    (h2w1 : te.e2.t1 - te.tA < 60) (h2w2 : te.e2.t2 - te.e2.tq < 60)
    (h2sf : te.e2.saidaFalha = false) (h2rr : te.e2.rr = .ok)
    (h2T : te.e2.okTorre = true) (h2G : te.e2.okPortao = true)
    (h3w1 : te.e3.t1 - te.tB < 60) (h3w2 : te.e3.t2 - te.e3.tq < 60)
    (h3sf : te.e3.saidaFalha = false) (h3rr : te.e3.rr = .ok)
    (h3T : te.e3.okTorre = true) (h3G : te.e3.okPortao = true)
    (h3P : te.e3.okPista = true)
    (hei : 0 ≤ s.esperando_internacional)
    (hed : 0 ≤ s.esperando_domestico) :
    SoFinal.reservas (SoFinal.aviao_thread a0 s te).2.2 =
      [(1, 0, 1), (0, 1, 1), (1, 1, 1)] ∧
    (SoFinal.aviao_thread a0 s te).1.has_pista = false ∧
    (SoFinal.aviao_thread a0 s te).1.has_portao = false ∧
    (SoFinal.aviao_thread a0 s te).1.has_torre = false ∧
    (SoFinal.aviao_thread a0 s te).1.status_final = .SUCESSO ∧
    (SoFinal.aviao_thread a0 s te).2.1 = s ∧
    (SoFinal.pouso
      { a0 with
        ultimo_tempo_espera := te.t0,
        has_pista := false,
        has_portao := false,
        has_torre := false } s te.e1).a.has_pista = false ∧
    (SoFinal.pouso
      { a0 with
        ultimo_tempo_espera := te.t0,
        has_pista := false,
        has_portao := false,
        has_torre := false } s te.e1).a.has_portao = false ∧
    (SoFinal.pouso
      { a0 with
        ultimo_tempo_espera := te.t0,
        has_pista := false,
        has_portao := false,
        has_torre := false } s te.e1).a.has_torre = false ∧
    (SoFinal.desembarque
      { a0 with
        status_final :=
          if a0.status_final = .ALERTA_CRITICO then .SUCESSO
          else a0.status_final,
        em_alerta_critico := false,
        ultimo_tempo_espera := te.tA,
        has_pista := false,
        has_portao := false,
        has_torre := false,
        inicio_pouso := te.e1.tini,
        fim_pouso := te.e1.tfim } s te.e2).a.has_pista = false ∧
    (SoFinal.desembarque
      { a0 with
        status_final :=
          if a0.status_final = .ALERTA_CRITICO then .SUCESSO
          else a0.status_final,
        em_alerta_critico := false,
        ultimo_tempo_espera := te.tA,
        has_pista := false,
        has_portao := false,
        has_torre := false,
        inicio_pouso := te.e1.tini,
        fim_pouso := te.e1.tfim } s te.e2).a.has_portao = false ∧
    (SoFinal.desembarque
      { a0 with
        status_final :=
          if a0.status_final = .ALERTA_CRITICO then .SUCESSO
          else a0.status_final,
        em_alerta_critico := false,
        ultimo_tempo_espera := te.tA,
        has_pista := false,
        has_portao := false,
        has_torre := false,
        inicio_pouso := te.e1.tini,
        fim_pouso := te.e1.tfim } s te.e2).a.has_torre = false := by
  have hst1 : SoFinal.eh_falha
      (if a0.status_final = .ALERTA_CRITICO then SoFinal.StatusAviao.SUCESSO
       else a0.status_final) = false := by
    by_cases hA : a0.status_final = .ALERTA_CRITICO
    · rw [if_pos hA]
      rfl
    · rw [if_neg hA]
      exact hst
  have hst2 : SoFinal.eh_falha
      (if (if a0.status_final = .ALERTA_CRITICO then
            SoFinal.StatusAviao.SUCESSO else a0.status_final) =
          .ALERTA_CRITICO then SoFinal.StatusAviao.SUCESSO
       else if a0.status_final = .ALERTA_CRITICO then
         SoFinal.StatusAviao.SUCESSO else a0.status_final) = false := by
    by_cases hA : a0.status_final = .ALERTA_CRITICO
    · rw [if_pos hA]
      rfl
    · rw [if_neg hA]
      exact hst1
  have e1 := SoFinal.pouso_eq_sucesso
    { a0 with
      ultimo_tempo_espera := te.t0,
      has_pista := false,
      has_portao := false,
      has_torre := false } s te.e1
    rfl rfl hst h1w1 h1w2 h1sf h1rr h1T h1P hei hed
  have e2 := SoFinal.desembarque_eq_sucesso
    { a0 with
      status_final :=
        if a0.status_final = .ALERTA_CRITICO then .SUCESSO
        else a0.status_final,
      em_alerta_critico := false,
      ultimo_tempo_espera := te.tA,
      has_pista := false,
      has_portao := false,
      has_torre := false,
      inicio_pouso := te.e1.tini,
      fim_pouso := te.e1.tfim } s te.e2
    rfl rfl hst1 h2w1 h2w2 h2sf h2rr h2T h2G hei hed
  have e3 := SoFinal.decolagem_eq_sucesso
    { a0 with
      status_final :=
        if (if a0.status_final = .ALERTA_CRITICO then
              SoFinal.StatusAviao.SUCESSO else a0.status_final) =
            .ALERTA_CRITICO then SoFinal.StatusAviao.SUCESSO
        else if a0.status_final = .ALERTA_CRITICO then
          SoFinal.StatusAviao.SUCESSO else a0.status_final,
      em_alerta_critico := false,
      ultimo_tempo_espera := te.tB,
      has_pista := false,
      has_portao := false,
      has_torre := false,
      inicio_pouso := te.e1.tini,
      fim_pouso := te.e1.tfim,
      inicio_desembarque := te.e2.tini,
      fim_desembarque := te.e2.tfim } s te.e3
    rfl rfl rfl hst2 h3w1 h3w2 h3sf h3rr h3T h3G h3P hei hed
  refine ⟨?_, ?_, ?_, ?_, ?_, ?_, ?_, ?_, ?_, ?_, ?_, ?_⟩ <;>
    simp only [SoFinal.aviao_thread, e1, e2, e3] <;> rfl
/-- C10 witness: a concrete Domestic aircraft created with all three flags
set still enters pouso with clean flags, reserves the full requirement of
each phase, and finishes SUCESSO holding nothing. -/
theorem c10_sem_encadeamento_witness :
    SoFinal.reservas (SoFinal.aviao_thread
      ⟨7, .DOMESTICO, .SUCESSO, false, 0, true, true, true,
        0, 0, 0, 0, 0, 0⟩
      ⟨⟨3, 5, 2⟩, 3, 5, 2, 0, 0, 0, 0⟩
      ⟨0, ⟨0, 0, false, 0, 0, .ok, true, true, true, 1⟩,
        1, ⟨1, 1, false, 1, 1, .ok, true, true, true, 2⟩,
        2, ⟨2, 2, false, 2, 2, .ok, true, true, true, 3⟩⟩).2.2 =
      [(1, 0, 1), (0, 1, 1), (1, 1, 1)] ∧
    (SoFinal.aviao_thread
      ⟨7, .DOMESTICO, .SUCESSO, false, 0, true, true, true,
        0, 0, 0, 0, 0, 0⟩
      ⟨⟨3, 5, 2⟩, 3, 5, 2, 0, 0, 0, 0⟩
      ⟨0, ⟨0, 0, false, 0, 0, .ok, true, true, true, 1⟩,
        1, ⟨1, 1, false, 1, 1, .ok, true, true, true, 2⟩,
        2, ⟨2, 2, false, 2, 2, .ok, true, true, true, 3⟩⟩).1.has_torre =
      false ∧
    (SoFinal.aviao_thread
      ⟨7, .DOMESTICO, .SUCESSO, false, 0, true, true, true,
        0, 0, 0, 0, 0, 0⟩
      ⟨⟨3, 5, 2⟩, 3, 5, 2, 0, 0, 0, 0⟩
      ⟨0, ⟨0, 0, false, 0, 0, .ok, true, true, true, 1⟩,
        1, ⟨1, 1, false, 1, 1, .ok, true, true, true, 2⟩,
        2, ⟨2, 2, false, 2, 2, .ok, true, true, true, 3⟩⟩).1.status_final =
      .SUCESSO := by
  have h := c10_sem_encadeamento
    ⟨7, .DOMESTICO, .SUCESSO, false, 0, true, true, true,
      0, 0, 0, 0, 0, 0⟩
    ⟨⟨3, 5, 2⟩, 3, 5, 2, 0, 0, 0, 0⟩
    ⟨0, ⟨0, 0, false, 0, 0, .ok, true, true, true, 1⟩,
      1, ⟨1, 1, false, 1, 1, .ok, true, true, true, 2⟩,
      2, ⟨2, 2, false, 2, 2, .ok, true, true, true, 3⟩⟩
    (by decide) (by decide) (by decide) (by decide) (by decide)
    (by decide) (by decide) (by decide) (by decide) (by decide)
    (by decide) (by decide) (by decide) (by decide) (by decide)
    (by decide) (by decide) (by decide) (by decide) (by decide)
    (by decide) (by decide)
  exact ⟨h.1, h.2.2.2.1, h.2.2.2.2.1⟩
